import Mathlib

/-!
# RDMA client library

A shallow embedding of `src/rdma_client_lib.c` and `src/include/rdma_client_lib.h`.

* Pointers and handles are natural numbers, `0` being `NULL`.
* Calls into librdmacm, libibverbs, libc and pthreads are answered by an
  environment record (one field per call) and logged.
* The two background threads are sequentialised: a blocking wait of the caller
  is given the list of events (or work completions) that the background thread
  handles before the caller looks at its condition again; the wait ends when the
  condition then holds and blocks for ever otherwise.
* `client_server_shared.h` is not part of the sources at hand; what the code
  takes from it is the parameter record `client_server_shared`. Its macro
  `API_NULL(p, ...)` is read as the test `p == NULL`, `EXT_API_STATUS(cond, ...)`
  as the test `cond`, and `randomize_buf` as filling the buffer it is given.
* Timing (`TIME_START`, `TIME_GET_ELAPSED_TIME`) and printing are left out.
-/

namespace RdmaClient

/-! ## Constants of `rdma_client_lib.h` -/

/-- Ring capacity: `#define MAX_SEND_WR 1024`. -/
def MAX_SEND_WR : Nat := 1024

/-- Receive queue depth: `#define MAX_RECV_WR 512`. -/
def MAX_RECV_WR : Nat := 512

/-- Completion queue depth: `#define MAX_CQE 512`. -/
def MAX_CQE : Nat := 512

/-- What the code uses from `client_server_shared.h`, a header that is not among
the sources: the three opcodes, the size of a registered buffer, and the test
that the macro `API_STATUS(rc, ...)` applies to a return code before it runs its
failure block (`true` means the failure block runs). -/
structure client_server_shared where
  OPC_SEND_ONLY : Int
  OPC_RDMA_READ : Int
  OPC_RDMA_WRITE : Int
  MAX_MR_SZ : Nat
  API_STATUS : Int → Bool

/-- One concrete choice of the shared header: opcodes 0, 1, 2, buffers of 1 MiB,
and `API_STATUS` failing on every nonzero return code. -/
def shared_sample : client_server_shared where
  OPC_SEND_ONLY := 0
  OPC_RDMA_READ := 1
  OPC_RDMA_WRITE := 2
  MAX_MR_SZ := 1048576
  API_STATUS := fun rc => decide (rc ≠ 0)

/-! ## Machine integers -/

/-- The value of a C `int` after an arithmetic result is stored back into 32 bits:
two's complement wrap-around, which is what `count++` on a static `int` does on the
usual targets (the C standard leaves the overflow undefined). -/
def wrap_int32 (x : Int) : Int := (x + 2147483648) % 4294967296 - 2147483648

/-- Conversion of a C `int` to `uint64_t`. -/
def to_uint64 (x : Int) : Nat := (x % 18446744073709551616).toNat

/-- Conversion of a `size_t` to `uint32_t`. -/
def to_uint32 (x : Nat) : Nat := x % 4294967296

/-! ## The connection context -/

/-- The struct `client_ctx_t`. Thread handles record whether the thread was created;
the mutexes and condition variables are not modelled. -/
structure client_ctx_t where
  cm_id : Nat
  addr_id : Nat
  connect_id : Nat
  verbs : Nat
  pd : Nat
  scq : Nat
  rcq : Nat
  channel : Nat
  evt_thread : Bool
  evt_fn : Bool
  is_connected : Bool
  wcq_thread : Bool
  wcq_fn : Bool
  send_client_buf : Nat
  send_client_buf_sz : Nat
  recv_client_buf : Nat
  recv_client_buf_sz : Nat
  send_buf_mr : Nat
  recv_buf_mr : Nat
  rtt_done : Fin MAX_SEND_WR → Bool

/-- The context right after `calloc(1, sizeof(client_ctx_t))`: every field zero. -/
def calloc_ctx : client_ctx_t where
  cm_id := 0
  addr_id := 0
  connect_id := 0
  verbs := 0
  pd := 0
  scq := 0
  rcq := 0
  channel := 0
  evt_thread := false
  evt_fn := false
  is_connected := false
  wcq_thread := false
  wcq_fn := false
  send_client_buf := 0
  send_client_buf_sz := 0
  recv_client_buf := 0
  recv_client_buf_sz := 0
  send_buf_mr := 0
  recv_buf_mr := 0
  rtt_done := fun _ => false

/-! ## The connection event monitor -/

/-- The enumeration `rdma_cm_event_type` of librdmacm. -/
inductive rdma_cm_event_type
  | RDMA_CM_EVENT_ADDR_RESOLVED
  | RDMA_CM_EVENT_ADDR_ERROR
  | RDMA_CM_EVENT_ROUTE_RESOLVED
  | RDMA_CM_EVENT_ROUTE_ERROR
  | RDMA_CM_EVENT_CONNECT_REQUEST
  | RDMA_CM_EVENT_CONNECT_RESPONSE
  | RDMA_CM_EVENT_CONNECT_ERROR
  | RDMA_CM_EVENT_UNREACHABLE
  | RDMA_CM_EVENT_REJECTED
  | RDMA_CM_EVENT_ESTABLISHED
  | RDMA_CM_EVENT_DISCONNECTED
  | RDMA_CM_EVENT_DEVICE_REMOVAL
  | RDMA_CM_EVENT_MULTICAST_JOIN
  | RDMA_CM_EVENT_MULTICAST_ERROR
  | RDMA_CM_EVENT_ADDR_CHANGE
  | RDMA_CM_EVENT_TIMEWAIT_EXIT
  deriving DecidableEq, Repr

/-- The fields of `struct rdma_cm_event` the monitor reads. -/
structure rdma_cm_event where
  id : Nat
  event : rdma_cm_event_type
  deriving DecidableEq, Repr

/-- The `switch (event->event)` of `client_event_monitor`: one event applied to the
context. -/
def client_event_monitor_step (ctx : client_ctx_t) (event : rdma_cm_event) : client_ctx_t :=
  match event.event with
  | .RDMA_CM_EVENT_ADDR_RESOLVED => { ctx with addr_id := event.id }
  | .RDMA_CM_EVENT_ROUTE_RESOLVED => { ctx with connect_id := event.id }
  | .RDMA_CM_EVENT_ESTABLISHED => { ctx with is_connected := true }
  | .RDMA_CM_EVENT_DISCONNECTED => { ctx with is_connected := false }
  | _ => ctx

/-- The loop of `client_event_monitor` over the successive answers of
`rdma_get_cm_event` (return code and event): it stops at the first failing
fetch and applies every event fetched before it. -/
def client_event_monitor (K : client_server_shared) :
    client_ctx_t → List (Int × rdma_cm_event) → client_ctx_t
  | ctx, [] => ctx
  | ctx, (rc, event) :: rest =>
    if K.API_STATUS rc then ctx
    else client_event_monitor K (client_event_monitor_step ctx event) rest

/-! ## The completion poller -/

/-- The enumeration `ibv_wc_opcode` of libibverbs. -/
inductive ibv_wc_opcode
  | IBV_WC_SEND
  | IBV_WC_RDMA_WRITE
  | IBV_WC_RDMA_READ
  | IBV_WC_COMP_SWAP
  | IBV_WC_FETCH_ADD
  | IBV_WC_BIND_MW
  | IBV_WC_LOCAL_INV
  | IBV_WC_TSO
  | IBV_WC_RECV
  | IBV_WC_RECV_RDMA_WITH_IMM
  deriving DecidableEq, Repr

/-- The status `IBV_WC_SUCCESS` of libibverbs. -/
def IBV_WC_SUCCESS : Nat := 0

/-- The fields of `struct ibv_wc` the poller reads. -/
structure ibv_wc where
  wr_id : Nat
  status : Nat
  opcode : ibv_wc_opcode
  deriving DecidableEq, Repr

/-- What handling one work completion does: whether the failure line was printed,
how many times `wcq_cv` was signalled, and the context afterwards (`none` when the
store into `rtt_done` fell outside the table). -/
structure wcq_outcome where
  reported : Bool
  signals : Nat
  ctx : Option client_ctx_t

/-- The body of the `for` loop of `client_wcq_monitor`: the status check, which only
prints, followed by the `switch (wc[i].opcode)`. -/
def client_wcq_monitor_wc (ctx : client_ctx_t) (wc : ibv_wc) : wcq_outcome :=
  let reported := decide (wc.status ≠ IBV_WC_SUCCESS)
  match wc.opcode with
  | .IBV_WC_RECV | .IBV_WC_RECV_RDMA_WITH_IMM =>
    if h : wc.wr_id < MAX_SEND_WR then
      { reported := reported, signals := 1,
        ctx := some { ctx with rtt_done := Function.update ctx.rtt_done ⟨wc.wr_id, h⟩ true } }
    else
      { reported := reported, signals := 0, ctx := none }
  | .IBV_WC_RDMA_WRITE | .IBV_WC_SEND =>
    { reported := reported, signals := 0, ctx := some ctx }
  | _ =>
    { reported := reported, signals := 0, ctx := some ctx }

/-- One batch returned by `ibv_poll_cq`, handled in order by the `for` loop. -/
def client_wcq_monitor_batch : client_ctx_t → List ibv_wc → Option client_ctx_t
  | ctx, [] => some ctx
  | ctx, wc :: rest =>
    match (client_wcq_monitor_wc ctx wc).ctx with
    | none => none
    | some ctx1 => client_wcq_monitor_batch ctx1 rest

/-! ## Requests -/

/-- The struct `ibv_sge`; `lkey` is the key of the registration whose handle is stored. -/
structure ibv_sge where
  addr : Nat
  length : Nat
  lkey : Nat
  deriving DecidableEq, Repr

/-- The fields of `struct ibv_recv_wr` that `send_client_request` fills in. -/
structure ibv_recv_wr where
  wr_id : Nat
  sg_list : ibv_sge
  num_sge : Nat
  deriving DecidableEq, Repr

/-- The fields of `struct ibv_send_wr` that `send_client_request` fills in
(`opcode` is always `IBV_WR_SEND_WITH_IMM`, `send_flags` always `IBV_SEND_SIGNALED`). -/
structure ibv_send_wr where
  wr_id : Nat
  sg_list : ibv_sge
  num_sge : Nat
  imm_data : Nat
  remote_addr : Nat
  rkey : Nat
  deriving DecidableEq, Repr

/-- A descriptor handed to the queue pair of a connection identifier. -/
inductive posted_wr
  | ibv_post_recv (cm_id : Nat) (wr : ibv_recv_wr)
  | ibv_post_send (cm_id : Nat) (wr : ibv_send_wr)
  deriving DecidableEq, Repr

/-- The wr_id a posted descriptor is tagged with. -/
def posted_wr.wr_id : posted_wr → Nat
  | .ibv_post_recv _ wr => wr.wr_id
  | .ibv_post_send _ wr => wr.wr_id

/-- The length of the single scatter/gather element of a posted descriptor. -/
def posted_wr.length : posted_wr → Nat
  | .ibv_post_recv _ wr => wr.sg_list.length
  | .ibv_post_send _ wr => wr.sg_list.length

/-- How a call ends: it returns a code, it never wakes from a wait, or it reads
`rtt_done` outside the table. -/
inductive call_outcome
  | returned (rc : Int)
  | blocked
  | fault
  deriving DecidableEq, Repr

/-- The answers of the transport to one `send_client_request`: the return codes of
the two posts and, given the descriptors that were posted, the work completions the
poller handles from the moment the send is posted until the caller looks at its flag. -/
structure send_env where
  post_recv_rc : Int
  post_send_rc : Int
  completions : List posted_wr → List ibv_wc

/-- Result of the wait `while (!ctx->rtt_done[id]) pthread_cond_wait(...)`. -/
inductive wait_result
  | woken (ctx : client_ctx_t)
  | blocked (ctx : client_ctx_t)
  | fault

/-- The wait on slot `id`: the poller handles the completions it is given, then the
caller looks at the flag. -/
def wait_rtt_done (id : Fin MAX_SEND_WR) (ctx : client_ctx_t) (completions : List ibv_wc) :
    wait_result :=
  match client_wcq_monitor_batch ctx completions with
  | none => .fault
  | some ctx1 => if ctx1.rtt_done id then .woken ctx1 else .blocked ctx1

/-- What one call of `send_client_request` leaves behind: its outcome, the descriptors
it posted in order, the static counter and the context. -/
structure send_result where
  outcome : call_outcome
  posted : List posted_wr
  count : Int
  ctx : client_ctx_t

/-- The receive descriptor `send_client_request` builds (`recv_wr` with its `sge`).
`count % MAX_SEND_WR` is the remainder of C on `int`, which truncates towards zero
(`Int.tmod`), converted to the 64-bit `wr_id`. -/
def recv_wr_of (count : Int) (ctx : client_ctx_t) (msg_sz : Nat) : ibv_recv_wr :=
  { wr_id := to_uint64 (Int.tmod count MAX_SEND_WR)
    sg_list :=
      { addr := ctx.recv_client_buf
        length := to_uint32 (if msg_sz < ctx.recv_client_buf_sz then msg_sz
                             else ctx.recv_client_buf_sz)
        lkey := ctx.recv_buf_mr }
    num_sge := 1 }

/-- The send descriptor `send_client_request` builds (`send_wr` with its `sge`); `count`
is the counter before `count++`. -/
def send_wr_of (count : Int) (ctx : client_ctx_t) (opc : Int) (msg_sz : Nat) : ibv_send_wr :=
  { wr_id := to_uint64 (Int.tmod count MAX_SEND_WR)
    sg_list :=
      { addr := ctx.send_client_buf
        length := to_uint32 (if msg_sz < ctx.send_client_buf_sz then msg_sz
                             else ctx.send_client_buf_sz)
        lkey := ctx.send_buf_mr }
    num_sge := 1
    imm_data := to_uint32 (to_uint64 opc)
    remote_addr := 0
    rkey := 0 }

/-- The function `send_client_request`; `count` is its static request counter. -/
def send_client_request (K : client_server_shared) (env : send_env) (count : Int)
    (ctx : client_ctx_t) (opc : Int) (msg_sz : Nat) : send_result :=
  if opc ≠ K.OPC_SEND_ONLY then
    { outcome := .returned (-1), posted := [], count := count, ctx := ctx }
  else
    let recv_wr := recv_wr_of count ctx msg_sz
    if K.API_STATUS env.post_recv_rc then
      { outcome := .returned (-1), posted := [.ibv_post_recv ctx.cm_id recv_wr],
        count := count, ctx := ctx }
    else
      let send_wr := send_wr_of count ctx opc msg_sz
      let count1 := wrap_int32 (count + 1)
      let posted := [posted_wr.ibv_post_recv ctx.cm_id recv_wr,
                     posted_wr.ibv_post_send ctx.cm_id send_wr]
      if K.API_STATUS env.post_send_rc then
        { outcome := .returned (-1), posted := posted, count := count1, ctx := ctx }
      else if h : recv_wr.wr_id < MAX_SEND_WR then
        match wait_rtt_done ⟨recv_wr.wr_id, h⟩ ctx (env.completions posted) with
        | .woken ctx1 =>
          { outcome := .returned 0, posted := posted, count := count1,
            ctx := { ctx1 with
                     rtt_done := Function.update ctx1.rtt_done ⟨recv_wr.wr_id, h⟩ false } }
        | .blocked ctx1 =>
          { outcome := .blocked, posted := posted, count := count1, ctx := ctx1 }
        | .fault =>
          { outcome := .fault, posted := posted, count := count1, ctx := ctx }
      else
        { outcome := .fault, posted := posted, count := count1, ctx := ctx }

/-! ## Responses -/

/-- An `unsigned char`. -/
abbrev Byte := Fin 256

/-- The libc function `memcmp` on the bytes of two mapped regions: `0` when the first
`n` bytes agree, otherwise the difference of the first pair of bytes that differ;
`none` when it would read past the end of a region. -/
def memcmp : List Byte → List Byte → Nat → Option Int
  | _, _, 0 => some 0
  | a :: s, b :: r, n + 1 => if a = b then memcmp s r n else some ((a.val : Int) - (b.val : Int))
  | _, _, _ + 1 => none

/-- Process memory: the bytes of the region mapped at an address, if one is mapped. -/
abbrev Memory := Nat → Option (List Byte)

/-- The function `process_client_response`. -/
def process_client_response (mem : Memory) (ctx : client_ctx_t) (_opc : Int) (msg_sz : Nat) :
    Option Int :=
  match mem ctx.send_client_buf, mem ctx.recv_client_buf with
  | some s, some r => memcmp s r msg_sz
  | _, _ => none

/-- Modelled from the spec: the echo server (its library is not among the sources) copies
what it received into its reply, so that after the round trip of a request of `msg_sz`
bytes the first `msg_sz` bytes of the receive buffer are the first `msg_sz` bytes of the
send buffer. -/
def echo_reply (mem : Memory) (ctx : client_ctx_t) (msg_sz : Nat) : Memory :=
  fun a =>
    if a = ctx.recv_client_buf then
      match mem ctx.send_client_buf, mem ctx.recv_client_buf with
      | some s, some r => some (s.take msg_sz ++ r.drop msg_sz)
      | _, r => r
    else mem a

/-! ## Library calls -/

/-- Which background thread a `pthread_create` starts. -/
inductive thread_fn_t
  | client_event_monitor
  | client_wcq_monitor
  deriving DecidableEq, Repr

/-- A call into librdmacm, libibverbs, libc or pthreads, with its arguments and, where
the code looks at it, its answer. -/
inductive lib_call
  | rdma_get_devices (ret : Nat)
  | rdma_free_devices (list : Nat)
  | calloc (ok : Bool)
  | rdma_create_event_channel (ret : Nat)
  | rdma_create_id (channel : Nat) (rc : Int) (id : Nat)
  | pthread_create (fn : thread_fn_t) (rc : Int)
  | rdma_bind_addr (cm_id : Nat) (rc : Int)
  | rdma_resolve_addr (cm_id : Nat) (rc : Int)
  | rdma_resolve_route (cm_id : Nat) (rc : Int)
  | ibv_alloc_pd (verbs : Nat) (ret : Nat)
  | ibv_create_cq (verbs : Nat) (cqe : Nat) (ret : Nat)
  | rdma_create_qp (cm_id : Nat) (pd : Nat) (rc : Int)
  | rdma_connect (cm_id : Nat) (rc : Int)
  | rdma_disconnect (cm_id : Nat)
  | pthread_attr_destroy
  | ibv_destroy_cq (cq : Nat)
  | ibv_dealloc_pd (pd : Nat)
  | rdma_destroy_id (cm_id : Nat)
  | rdma_destroy_event_channel (channel : Nat)
  | free
  | mmap (length : Nat) (ret : Option Nat)
  | munmap (addr : Nat) (length : Nat)
  | ibv_reg_mr (pd : Nat) (addr : Nat) (length : Nat) (ret : Nat)
  | ibv_dereg_mr (mr : Nat)
  | randomize_buf (sz : Nat)
  deriving DecidableEq, Repr

/-! ## Data preparation -/

/-- The answers of the system to one `prepare_client_data`: the two `mmap` results
(`none` is `MAP_FAILED`), the two registration handles (`0` is `NULL`) and the return
code of `pthread_create`. -/
structure prepare_env where
  send_buf : Option Nat
  recv_buf : Option Nat
  send_buf_mr : Nat
  recv_buf_mr : Nat
  wcq_thread_rc : Int

/-- What one call of `prepare_client_data` leaves behind. -/
structure prepare_result where
  rc : Int
  calls : List lib_call
  ctx : client_ctx_t

/-- The function `prepare_client_data`. The call of `randomize_buf` is logged; it writes
into the send buffer and not into the context. -/
def prepare_client_data (K : client_server_shared) (env : prepare_env) (ctx : client_ctx_t)
    (opc : Int) : prepare_result :=
  let send_sz := K.MAX_MR_SZ
  let recv_sz := K.MAX_MR_SZ
  match env.send_buf with
  | none => { rc := -1, calls := [.mmap send_sz none], ctx := ctx }
  | some send_buf =>
    match env.recv_buf with
    | none =>
      { rc := -1,
        calls := [.mmap send_sz (some send_buf), .mmap recv_sz none,
                  .munmap send_buf send_sz],
        ctx := ctx }
    | some recv_buf =>
      let maps := [lib_call.mmap send_sz (some send_buf), lib_call.mmap recv_sz (some recv_buf)]
      let ctx1 := { ctx with send_client_buf := send_buf, send_client_buf_sz := send_sz,
                             recv_client_buf := recv_buf, recv_client_buf_sz := recv_sz }
      let ctx2 := { ctx1 with send_buf_mr := env.send_buf_mr }
      let reg1 := maps ++ [lib_call.ibv_reg_mr ctx1.pd send_buf send_sz env.send_buf_mr]
      if ctx2.send_buf_mr = 0 then
        { rc := -1,
          calls := reg1 ++ [.munmap send_buf send_sz, .munmap recv_buf recv_sz],
          ctx := ctx2 }
      else
        let ctx3 := { ctx2 with recv_buf_mr := env.recv_buf_mr }
        let reg2 := reg1 ++ [lib_call.ibv_reg_mr ctx2.pd recv_buf recv_sz env.recv_buf_mr]
        if ctx3.recv_buf_mr = 0 then
          { rc := -1,
            calls := reg2 ++ [.munmap send_buf send_sz, .munmap recv_buf recv_sz,
                              .ibv_dereg_mr ctx3.send_buf_mr],
            ctx := ctx3 }
        else
          let ctx4 := { ctx3 with wcq_fn := true }
          let started := reg2 ++ [lib_call.randomize_buf ctx3.send_client_buf_sz,
                                  lib_call.pthread_create .client_wcq_monitor env.wcq_thread_rc]
          if K.API_STATUS env.wcq_thread_rc then
            { rc := -1, calls := started, ctx := ctx4 }
          else
            let ctx5 := { ctx4 with wcq_thread := true }
            if opc = K.OPC_RDMA_READ ∨ opc = K.OPC_RDMA_WRITE then
              { rc := -1, calls := started, ctx := ctx5 }
            else
              { rc := 0, calls := started, ctx := ctx5 }

/-! ## Connection setup -/

/-- The answers of the system to one `setup_client`, one field per call, and the
connection-manager events the monitor applies during each of the three waits. -/
structure setup_env where
  rdma_verbs : Nat
  ctx : Bool
  channel : Nat
  create_id_rc : Int
  cm_id : Nat
  evt_thread_rc : Int
  bind_rc : Int
  resolve_addr_rc : Int
  addr_events : List rdma_cm_event
  resolve_route_rc : Int
  route_events : List rdma_cm_event
  verbs : Nat
  pd : Nat
  scq : Nat
  create_qp_rc : Int
  connect_rc : Int
  connect_events : List rdma_cm_event

/-- How `setup_client` ends: with a context, with `NULL`, or asleep in a wait. -/
inductive setup_outcome
  | ctx (c : client_ctx_t)
  | null
  | blocked

/-- What one call of `setup_client` leaves behind: its outcome and the library calls
it made, in order. -/
structure setup_result where
  outcome : setup_outcome
  calls : List lib_call

/-- A wait `while (!cond) pthread_cond_wait(&evt_cv, &evt_mtx)`: the monitor applies the
events, then the caller looks at the condition. -/
def wait_event (cond : client_ctx_t → Bool) (ctx : client_ctx_t)
    (events : List rdma_cm_event) : Option client_ctx_t :=
  let ctx1 := events.foldl client_event_monitor_step ctx
  if cond ctx1 then some ctx1 else none

/-- The code from label `free_ctx_fields` on. -/
def free_ctx_fields (_ctx : client_ctx_t) : List lib_call :=
  [.free]

/-- The code from label `free_channel` on. -/
def free_channel (ctx : client_ctx_t) : List lib_call :=
  .rdma_destroy_event_channel ctx.channel :: free_ctx_fields ctx

/-- The code from label `free_cm_id` on. -/
def free_cm_id (ctx : client_ctx_t) : List lib_call :=
  .rdma_destroy_id ctx.cm_id :: free_channel ctx

/-- The code from label `free_pd` on. -/
def free_pd (ctx : client_ctx_t) : List lib_call :=
  .ibv_dealloc_pd ctx.pd :: free_cm_id ctx

/-- The code from label `free_cq` on. -/
def free_cq (ctx : client_ctx_t) : List lib_call :=
  (if ctx.scq ≠ 0 ∨ ctx.rcq ≠ 0 then [lib_call.ibv_destroy_cq ctx.scq] else []) ++ free_pd ctx

/-- The code from label `disconnect_free_cq` on. -/
def disconnect_free_cq (ctx : client_ctx_t) : List lib_call :=
  .rdma_disconnect ctx.cm_id :: .pthread_attr_destroy :: free_cq ctx

/-- The function `setup_client`. -/
def setup_client (K : client_server_shared) (env : setup_env) : setup_result :=
  let l0 := [lib_call.rdma_get_devices env.rdma_verbs]
  if env.rdma_verbs = 0 then { outcome := .null, calls := l0 } else
  let l1 := l0 ++ [.rdma_free_devices env.rdma_verbs, .calloc env.ctx]
  if env.ctx = false then { outcome := .null, calls := l1 } else
  let ctx1 := { calloc_ctx with channel := env.channel }
  let l2 := l1 ++ [.rdma_create_event_channel env.channel]
  if ctx1.channel = 0 then { outcome := .null, calls := l2 ++ free_ctx_fields ctx1 } else
  let l3 := l2 ++ [.rdma_create_id ctx1.channel env.create_id_rc env.cm_id]
  if K.API_STATUS env.create_id_rc then
    { outcome := .null, calls := l3 ++ free_channel ctx1 } else
  let ctx2 := { ctx1 with cm_id := env.cm_id, evt_fn := true }
  let l4 := l3 ++ [.pthread_create .client_event_monitor env.evt_thread_rc]
  if K.API_STATUS env.evt_thread_rc then
    { outcome := .null, calls := l4 ++ free_cm_id ctx2 } else
  let ctx3 := { ctx2 with evt_thread := true }
  let l5 := l4 ++ [.rdma_bind_addr ctx3.cm_id env.bind_rc]
  if K.API_STATUS env.bind_rc then
    { outcome := .null, calls := l5 ++ free_cm_id ctx3 } else
  let l6 := l5 ++ [.rdma_resolve_addr ctx3.cm_id env.resolve_addr_rc]
  if K.API_STATUS env.resolve_addr_rc then
    { outcome := .null, calls := l6 ++ free_cm_id ctx3 } else
  match wait_event (fun c => decide (c.addr_id ≠ 0)) ctx3 env.addr_events with
  | none => { outcome := .blocked, calls := l6 }
  | some ctx4 =>
  let l7 := l6 ++ [.rdma_resolve_route ctx4.cm_id env.resolve_route_rc]
  if K.API_STATUS env.resolve_route_rc then
    { outcome := .null, calls := l7 ++ free_cm_id ctx4 } else
  match wait_event (fun c => decide (c.connect_id ≠ 0)) ctx4 env.route_events with
  | none => { outcome := .blocked, calls := l7 }
  | some ctx5 =>
  let ctx6 := { ctx5 with verbs := env.verbs, pd := env.pd }
  let l8 := l7 ++ [.ibv_alloc_pd env.verbs env.pd]
  if ctx6.pd = 0 then { outcome := .null, calls := l8 ++ free_cm_id ctx6 } else
  let ctx7 := { ctx6 with scq := env.scq }
  let l9 := l8 ++ [.ibv_create_cq ctx6.verbs MAX_CQE env.scq]
  if ctx7.scq = 0 then { outcome := .null, calls := l9 ++ free_pd ctx7 } else
  let l10 := l9 ++ [.rdma_create_qp ctx7.cm_id ctx7.pd env.create_qp_rc]
  if K.API_STATUS env.create_qp_rc then
    { outcome := .null, calls := l10 ++ free_cq ctx7 } else
  let l11 := l10 ++ [.rdma_connect ctx7.cm_id env.connect_rc]
  if K.API_STATUS env.connect_rc then
    { outcome := .null, calls := l11 ++ disconnect_free_cq ctx7 } else
  match wait_event (fun c => c.is_connected) ctx7 env.connect_events with
  | none => { outcome := .blocked, calls := l11 }
  | some ctx8 => { outcome := .ctx ctx8, calls := l11 ++ [.pthread_attr_destroy] }

/-! ## Resources -/

/-- A resource that a library call hands out and a later call gives back. -/
inductive resource
  | context
  | event_channel (channel : Nat)
  | cm_id (id : Nat)
  | pd (pd : Nat)
  | cq (cq : Nat)
  | connection (cm_id : Nat)
  | mapping (addr : Nat) (length : Nat)
  | mr (mr : Nat)
  | qp (cm_id : Nat)
  | thread (fn : thread_fn_t)
  deriving DecidableEq, Repr

/-- The resource a call acquires, which it does only when it succeeds: a context from a
`calloc` that returned memory, a handle from a call that returned one, a connection
identifier, a queue pair, a connection or a running thread from a call whose return code
`API_STATUS` accepts, a mapping from an `mmap` that did not fail. -/
def acquired (K : client_server_shared) : lib_call → Option resource
  | .calloc ok => if ok then some .context else none
  | .rdma_create_event_channel ret => if ret ≠ 0 then some (.event_channel ret) else none
  | .rdma_create_id _ rc id => if K.API_STATUS rc then none else some (.cm_id id)
  | .pthread_create fn rc => if K.API_STATUS rc then none else some (.thread fn)
  | .ibv_alloc_pd _ ret => if ret ≠ 0 then some (.pd ret) else none
  | .ibv_create_cq _ _ ret => if ret ≠ 0 then some (.cq ret) else none
  | .rdma_create_qp id _ rc => if K.API_STATUS rc then none else some (.qp id)
  | .rdma_connect id rc => if K.API_STATUS rc then none else some (.connection id)
  | .mmap length (some addr) => some (.mapping addr length)
  | .ibv_reg_mr _ _ _ ret => if ret ≠ 0 then some (.mr ret) else none
  | _ => none

/-- The resource a call releases. No call of the library stops a thread or destroys a
queue pair. -/
def released : lib_call → Option resource
  | .free => some .context
  | .rdma_destroy_event_channel channel => some (.event_channel channel)
  | .rdma_destroy_id id => some (.cm_id id)
  | .ibv_dealloc_pd pd => some (.pd pd)
  | .ibv_destroy_cq cq => some (.cq cq)
  | .rdma_disconnect id => some (.connection id)
  | .munmap addr length => some (.mapping addr length)
  | .ibv_dereg_mr mr => some (.mr mr)
  | _ => none

/-! ## Steps of the setup -/

/-- The calls of `setup_client` that can fail once the context is allocated, in the order
the code makes them. -/
inductive setup_step
  | event_channel
  | create_id
  | event_monitor
  | bind
  | resolve_addr
  | resolve_route
  | alloc_pd
  | create_cq
  | create_qp
  | connect
  deriving DecidableEq, Repr

/-- The steps in program order. -/
def setup_steps : List setup_step :=
  [.event_channel, .create_id, .event_monitor, .bind, .resolve_addr, .resolve_route,
   .alloc_pd, .create_cq, .create_qp, .connect]

/-- The call of a step fails: it returns `NULL`, or a code that `API_STATUS` rejects. -/
def step_fails (K : client_server_shared) (env : setup_env) : setup_step → Bool
  | .event_channel => decide (env.channel = 0)
  | .create_id => K.API_STATUS env.create_id_rc
  | .event_monitor => K.API_STATUS env.evt_thread_rc
  | .bind => K.API_STATUS env.bind_rc
  | .resolve_addr => K.API_STATUS env.resolve_addr_rc
  | .resolve_route => K.API_STATUS env.resolve_route_rc
  | .alloc_pd => decide (env.pd = 0)
  | .create_cq => decide (env.scq = 0)
  | .create_qp => K.API_STATUS env.create_qp_rc
  | .connect => K.API_STATUS env.connect_rc

/-- A step is behind the caller: its call succeeded and, for the two resolutions, the
monitor has by the end of the wait that follows stored the handle waited for. -/
def step_done (K : client_server_shared) (env : setup_env) : setup_step → Prop
  | .resolve_addr =>
    K.API_STATUS env.resolve_addr_rc = false ∧
    (env.addr_events.foldl client_event_monitor_step calloc_ctx).addr_id ≠ 0
  | .resolve_route =>
    K.API_STATUS env.resolve_route_rc = false ∧
    ((env.addr_events ++ env.route_events).foldl client_event_monitor_step
      calloc_ctx).connect_id ≠ 0
  | t => step_fails K env t = false

/-- The first failure of a run of `setup_client` is at step `s`: a device list and a
context were obtained, every step before `s` is behind the caller, and the call of `s`
fails. -/
def fails_first_at (K : client_server_shared) (env : setup_env) (s : setup_step) : Prop :=
  env.rdma_verbs ≠ 0 ∧ env.ctx = true ∧
  (∀ t ∈ setup_steps.takeWhile (fun t => decide (t ≠ s)), step_done K env t) ∧
  step_fails K env s = true

/-- The chain of releases from the point the code jumps to when step `s` fails. -/
def unwinding (env : setup_env) : setup_step → List resource
  | .event_channel => [.context]
  | .create_id => [.event_channel env.channel, .context]
  | .event_monitor | .bind | .resolve_addr | .resolve_route | .alloc_pd =>
    [.cm_id env.cm_id, .event_channel env.channel, .context]
  | .create_cq => [.pd env.pd, .cm_id env.cm_id, .event_channel env.channel, .context]
  | .create_qp =>
    [.cq env.scq, .pd env.pd, .cm_id env.cm_id, .event_channel env.channel, .context]
  | .connect =>
    [.connection env.cm_id, .cq env.scq, .pd env.pd, .cm_id env.cm_id,
     .event_channel env.channel, .context]

/-- The resources acquired, in order, by the calls that succeeded before step `s`. -/
def acquisitions (env : setup_env) : setup_step → List resource
  | .event_channel => [.context]
  | .create_id => [.context, .event_channel env.channel]
  | .event_monitor => [.context, .event_channel env.channel, .cm_id env.cm_id]
  | .bind | .resolve_addr | .resolve_route | .alloc_pd =>
    [.context, .event_channel env.channel, .cm_id env.cm_id, .thread .client_event_monitor]
  | .create_cq =>
    [.context, .event_channel env.channel, .cm_id env.cm_id, .thread .client_event_monitor,
     .pd env.pd]
  | .create_qp =>
    [.context, .event_channel env.channel, .cm_id env.cm_id, .thread .client_event_monitor,
     .pd env.pd, .cq env.scq]
  | .connect =>
    [.context, .event_channel env.channel, .cm_id env.cm_id, .thread .client_event_monitor,
     .pd env.pd, .cq env.scq, .qp env.cm_id]

/-- The resources for which `setup_client` has both an acquiring call and a releasing
call: context, event channel, connection identifier, protection domain and completion
queue. -/
def paired : resource → Bool
  | .context => true
  | .event_channel _ => true
  | .cm_id _ => true
  | .pd _ => true
  | .cq _ => true
  | _ => false

/-! ## Runs and sample inputs -/

/-- The context of a client with two registered 1 MiB buffers. -/
def ctx_sample : client_ctx_t :=
  { calloc_ctx with cm_id := 1, is_connected := true,
                    send_client_buf := 4096, send_client_buf_sz := 1048576,
                    recv_client_buf := 2097152, recv_client_buf_sz := 1048576,
                    send_buf_mr := 2, recv_buf_mr := 3 }

/-- The successful completion the transport produces for a posted descriptor: a receive
completion once the reply of the peer has landed in a posted receive, a send completion
for a posted send, each carrying the `wr_id` of its descriptor. -/
def completion_of : posted_wr → ibv_wc
  | .ibv_post_recv _ wr => ⟨wr.wr_id, IBV_WC_SUCCESS, .IBV_WC_RECV⟩
  | .ibv_post_send _ wr => ⟨wr.wr_id, IBV_WC_SUCCESS, .IBV_WC_SEND⟩

/-- A transport that serves every request: both posts succeed and, before the caller
looks at its flag, the poller has handled the send completion and then the receive
completion of the request. -/
def transport_ok : send_env :=
  { post_recv_rc := 0, post_send_rc := 0,
    completions := fun posted => posted.reverse.map completion_of }

/-- A transport on which nothing completes. -/
def transport_silent : send_env :=
  { post_recv_rc := 0, post_send_rc := 0, completions := fun _ => [] }

/-- The request counter and context after `k` requests of `msg_sz` bytes issued one after
another on a serving transport, starting with the counter at 0; `none` as soon as one of
them does not return 0. -/
def state_after (K : client_server_shared) (ctx : client_ctx_t) (msg_sz : Nat) :
    Nat → Option (Int × client_ctx_t)
  | 0 => some (0, ctx)
  | k + 1 =>
    match state_after K ctx msg_sz k with
    | none => none
    | some st =>
      let r := send_client_request K transport_ok st.1 st.2 K.OPC_SEND_ONLY msg_sz
      if r.outcome = .returned 0 then some (r.count, r.ctx) else none

/-- The `k`-th request (counting from 0) of such a run: the call made in the state the
first `k` requests left behind. -/
def nth_request (K : client_server_shared) (ctx : client_ctx_t) (msg_sz : Nat) (k : Nat) :
    Option send_result :=
  (state_after K ctx msg_sz k).map fun st =>
    send_client_request K transport_ok st.1 st.2 K.OPC_SEND_ONLY msg_sz

/-- Sample process memory: a send buffer and a receive buffer of four bytes each, mapped
at the addresses recorded in `ctx_sample`. -/
def mem_sample : Memory := fun a =>
  if a = 4096 then some [1, 2, 3, 4]
  else if a = 2097152 then some [1, 2, 9, 9]
  else none

/-- A system on which every step of `prepare_client_data` succeeds. -/
def prepare_env_ok : prepare_env :=
  { send_buf := some 4096, recv_buf := some 2097152, send_buf_mr := 2, recv_buf_mr := 3,
    wcq_thread_rc := 0 }

/-- A system on which the registration of the receive buffer fails. -/
def prepare_env_recv_reg_fails : prepare_env :=
  { send_buf := some 4096, recv_buf := some 2097152, send_buf_mr := 2, recv_buf_mr := 0,
    wcq_thread_rc := 0 }

/-- A connected context before data preparation: transport handles set, no buffers. -/
def ctx_connected : client_ctx_t :=
  { calloc_ctx with cm_id := 1, addr_id := 1, connect_id := 1, verbs := 5, pd := 6, scq := 7,
                    channel := 8, evt_thread := true, evt_fn := true, is_connected := true }

/-- A system on which `setup_client` gets as far as `rdma_connect`, which fails. -/
def setup_env_connect_fails : setup_env :=
  { rdma_verbs := 1, ctx := true, channel := 8, create_id_rc := 0, cm_id := 1,
    evt_thread_rc := 0, bind_rc := 0, resolve_addr_rc := 0,
    addr_events := [⟨1, .RDMA_CM_EVENT_ADDR_RESOLVED⟩],
    resolve_route_rc := 0,
    route_events := [⟨1, .RDMA_CM_EVENT_ROUTE_RESOLVED⟩],
    verbs := 5, pd := 6, scq := 7, create_qp_rc := 0, connect_rc := -1,
    connect_events := [] }

/-! ## Connection states -/

/-- The connection state of the data model: `Initial → AddressResolved → RouteResolved →
Established → Disconnected`. -/
inductive connection_state
  | Initial
  | AddressResolved
  | RouteResolved
  | Established
  | Disconnected
  deriving DecidableEq, Repr

/-- The place of a state along the line `Initial`, ..., `Disconnected`. -/
def connection_state.rank : connection_state → Nat
  | .Initial => 0
  | .AddressResolved => 1
  | .RouteResolved => 2
  | .Established => 3
  | .Disconnected => 4

/-- The state read off a context: `Established` when `is_connected` is true,
`Disconnected` when it is false after having been true (`was_connected`), otherwise
`RouteResolved` when the connect handle is set, `AddressResolved` when the address handle
is set, and `Initial` when neither is. -/
def state_of (was_connected : Bool) (ctx : client_ctx_t) : connection_state :=
  if ctx.is_connected then .Established
  else if was_connected then .Disconnected
  else if ctx.connect_id ≠ 0 then .RouteResolved
  else if ctx.addr_id ≠ 0 then .AddressResolved
  else .Initial

/-- The events `client_event_monitor` applies out of the successive answers of
`rdma_get_cm_event`: those fetched before the first failing fetch. -/
def applied_events (K : client_server_shared) : List (Int × rdma_cm_event) → List rdma_cm_event
  | [] => []
  | (rc, event) :: rest => if K.API_STATUS rc then [] else event :: applied_events K rest

/-- The contexts the monitor goes through: the one it starts from and the one after each
event applied. -/
def monitor_trace : client_ctx_t → List rdma_cm_event → List client_ctx_t
  | ctx, [] => [ctx]
  | ctx, event :: rest => ctx :: monitor_trace (client_event_monitor_step ctx event) rest

/-- The states read off a list of successive contexts, `was_connected` telling whether
`is_connected` was true in a context before the list. -/
def states_along : Bool → List client_ctx_t → List connection_state
  | _, [] => []
  | was_connected, ctx :: rest =>
    state_of was_connected ctx :: states_along (was_connected || ctx.is_connected) rest

/-- What the order check remembers of the events seen so far: whether a route-resolved
event was among them (`routed`), whether the last established or disconnected event was an
established one (`live`), and whether a disconnected event came after an established one
(`closed`). -/
structure order_tracker where
  routed : Bool
  live : Bool
  closed : Bool
  deriving DecidableEq, Repr

/-- The tracker after one more event. -/
def order_track (t : order_tracker) : rdma_cm_event_type → order_tracker
  | .RDMA_CM_EVENT_ROUTE_RESOLVED => { t with routed := true }
  | .RDMA_CM_EVENT_ESTABLISHED => { t with live := true }
  | .RDMA_CM_EVENT_DISCONNECTED => { t with live := false, closed := t.closed || t.live }
  | _ => t

/-- An established event is in order when a route-resolved event came before it and no
disconnected event has followed an established one; every other event is in order. -/
def order_allows (t : order_tracker) : rdma_cm_event_type → Bool
  | .RDMA_CM_EVENT_ESTABLISHED => t.routed && !t.closed
  | _ => true

/-- No established event of the list comes before a route-resolved event or after a
disconnected event that followed an established one. -/
def established_in_order : order_tracker → List rdma_cm_event → Bool
  | _, [] => true
  | t, event :: rest =>
    order_allows t event.event && established_in_order (order_track t event.event) rest

/-- An address-resolved or route-resolved event carries a non-null identifier. -/
def handle_set (event : rdma_cm_event) : Bool :=
  match event.event with
  | .RDMA_CM_EVENT_ADDR_RESOLVED => decide (event.id ≠ 0)
  | .RDMA_CM_EVENT_ROUTE_RESOLVED => decide (event.id ≠ 0)
  | _ => true

/-- How the tracker of the events seen so far relates to the context they led to:
`routed` says that the connect handle is set, `live` is `is_connected`, outside a
connection `closed` says that the context was connected before, and a live connection is
routed and not closed. -/
def order_inv (t : order_tracker) (w : Bool) (ctx : client_ctx_t) : Prop :=
  (t.routed = true ↔ ctx.connect_id ≠ 0) ∧ ctx.is_connected = t.live ∧
  (t.live = false → w = t.closed) ∧ (t.live = true → t.closed = false ∧ t.routed = true)

/-- The request counter after `n` increments from 0 (`count++` on a 32-bit `int`). -/
def count_after : Nat → Int
  | 0 => 0
  | n + 1 => wrap_int32 (count_after n + 1)

/-- Fetches of an established, then disconnected, then again established event. -/
def fetches_reconnect : List (Int × rdma_cm_event) :=
  [(0, ⟨1, .RDMA_CM_EVENT_ESTABLISHED⟩), (0, ⟨1, .RDMA_CM_EVENT_DISCONNECTED⟩),
   (0, ⟨1, .RDMA_CM_EVENT_ESTABLISHED⟩)]

/-- Fetches of one connection attempt in which the address is resolved twice, an ignored
event comes in between and the disconnect is reported twice. -/
def fetches_attempt : List (Int × rdma_cm_event) :=
  [(0, ⟨1, .RDMA_CM_EVENT_ADDR_RESOLVED⟩), (0, ⟨1, .RDMA_CM_EVENT_ADDR_RESOLVED⟩),
   (0, ⟨1, .RDMA_CM_EVENT_ROUTE_RESOLVED⟩), (0, ⟨1, .RDMA_CM_EVENT_CONNECT_RESPONSE⟩),
   (0, ⟨1, .RDMA_CM_EVENT_ESTABLISHED⟩), (0, ⟨1, .RDMA_CM_EVENT_DISCONNECTED⟩),
   (0, ⟨1, .RDMA_CM_EVENT_DISCONNECTED⟩)]

/-- Fetches of an address-resolved event followed by one with a null identifier. -/
def fetches_null_handle : List (Int × rdma_cm_event) :=
  [(0, ⟨1, .RDMA_CM_EVENT_ADDR_RESOLVED⟩), (0, ⟨0, .RDMA_CM_EVENT_ADDR_RESOLVED⟩)]

/-! # Theorems -/

/-! ## Requests: opcode check and clamping -/

/-- C1: for every context, message size and opcode other than `OPC_SEND_ONLY`,
`send_client_request` returns -1 at once and hands no descriptor to the queue pair
(the request counter and the context are untouched as well). -/
theorem send_client_request_rejects_other_opcodes (K : client_server_shared) (env : send_env)
    (count : Int) (ctx : client_ctx_t) (opc : Int) (msg_sz : Nat)
    (hopc : opc ≠ K.OPC_SEND_ONLY) :
    (send_client_request K env count ctx opc msg_sz).outcome = .returned (-1) ∧
    (send_client_request K env count ctx opc msg_sz).posted = [] ∧
    (send_client_request K env count ctx opc msg_sz).count = count ∧
    (send_client_request K env count ctx opc msg_sz).ctx = ctx := by
  simp [send_client_request, hopc]

/-- Instance of C1 at `OPC_RDMA_READ` of the sample header, message size 64. -/
theorem send_client_request_rejects_other_opcodes_witness :
    shared_sample.OPC_RDMA_READ ≠ shared_sample.OPC_SEND_ONLY ∧
    (send_client_request shared_sample transport_silent 0 calloc_ctx
        shared_sample.OPC_RDMA_READ 64).outcome = .returned (-1) ∧
    (send_client_request shared_sample transport_silent 0 calloc_ctx
        shared_sample.OPC_RDMA_READ 64).posted = [] :=
  ⟨by decide,
   (send_client_request_rejects_other_opcodes shared_sample transport_silent 0 calloc_ctx
      shared_sample.OPC_RDMA_READ 64 (by decide)).1,
   (send_client_request_rejects_other_opcodes shared_sample transport_silent 0 calloc_ctx
      shared_sample.OPC_RDMA_READ 64 (by decide)).2.1⟩

/-- A length below `2^32` survives the conversion to the 32-bit `sge.length`. -/
theorem to_uint32_min (msg_sz cap : Nat) (hcap : cap < 4294967296) :
    to_uint32 (if msg_sz < cap then msg_sz else cap) = min msg_sz cap := by
  unfold to_uint32
  split_ifs with h
  · rw [Nat.mod_eq_of_lt (by omega)]; omega
  · rw [Nat.mod_eq_of_lt hcap]; omega

/-- The descriptors `send_client_request` posts: none for a foreign opcode, the receive
alone when posting it fails, the receive and then the send otherwise. -/
theorem send_client_request_posted (K : client_server_shared) (env : send_env)
    (count : Int) (ctx : client_ctx_t) (opc : Int) (msg_sz : Nat) :
    (send_client_request K env count ctx opc msg_sz).posted =
      if opc ≠ K.OPC_SEND_ONLY then []
      else if K.API_STATUS env.post_recv_rc then
        [.ibv_post_recv ctx.cm_id (recv_wr_of count ctx msg_sz)]
      else
        [.ibv_post_recv ctx.cm_id (recv_wr_of count ctx msg_sz),
         .ibv_post_send ctx.cm_id (send_wr_of count ctx opc msg_sz)] := by
  simp only [send_client_request]
  split_ifs <;> first
    | rfl
    | (split <;> rfl)

/-- The call returns -1 exactly when the opcode is foreign or a post fails. -/
theorem send_client_request_fails_iff (K : client_server_shared) (env : send_env)
    (count : Int) (ctx : client_ctx_t) (opc : Int) (msg_sz : Nat) :
    (send_client_request K env count ctx opc msg_sz).outcome = .returned (-1) ↔
      (opc ≠ K.OPC_SEND_ONLY ∨ K.API_STATUS env.post_recv_rc = true ∨
        K.API_STATUS env.post_send_rc = true) := by
  simp only [send_client_request]
  split_ifs with h1 h2 h3 h4
  · simp [h1]
  · simp [h2]
  · simp [h3]
  · have h1 : opc = K.OPC_SEND_ONLY := by simpa using h1
    split <;> simp [h1, h2, h3]
  · have h1 : opc = K.OPC_SEND_ONLY := by simpa using h1
    simp [h1, h2, h3]

/-- C2: with `OPC_SEND_ONLY` and buffer capacities below `2^32`, the request is never
turned down for its size: the first descriptor posted is a receive of length
`min msg_sz recv_client_buf_sz`; when that post succeeds the second is a send of length
`min msg_sz send_client_buf_sz`; and the call returns -1 exactly when the transport
refuses one of the two posts, so never on account of the size. -/
theorem send_client_request_clamps_length (K : client_server_shared) (env : send_env)
    (count : Int) (ctx : client_ctx_t) (msg_sz : Nat)
    (hrecv : ctx.recv_client_buf_sz < 4294967296)
    (hsend : ctx.send_client_buf_sz < 4294967296) :
    (∃ wr, (send_client_request K env count ctx K.OPC_SEND_ONLY msg_sz).posted.head? =
              some (.ibv_post_recv ctx.cm_id wr) ∧
           wr.sg_list.length = min msg_sz ctx.recv_client_buf_sz) ∧
    (K.API_STATUS env.post_recv_rc = false →
      ∃ wr, (send_client_request K env count ctx K.OPC_SEND_ONLY msg_sz).posted.tail =
              [.ibv_post_send ctx.cm_id wr] ∧
            wr.sg_list.length = min msg_sz ctx.send_client_buf_sz) ∧
    ((send_client_request K env count ctx K.OPC_SEND_ONLY msg_sz).outcome = .returned (-1) ↔
      (K.API_STATUS env.post_recv_rc = true ∨ K.API_STATUS env.post_send_rc = true)) := by
  have hr : (recv_wr_of count ctx msg_sz).sg_list.length = min msg_sz ctx.recv_client_buf_sz :=
    to_uint32_min msg_sz _ hrecv
  have hs : (send_wr_of count ctx K.OPC_SEND_ONLY msg_sz).sg_list.length =
      min msg_sz ctx.send_client_buf_sz := to_uint32_min msg_sz _ hsend
  refine ⟨?_, ?_, ?_⟩
  · rw [send_client_request_posted]
    refine ⟨recv_wr_of count ctx msg_sz, ?_, hr⟩
    split_ifs with h1 h2
    · exact absurd rfl h1
    · rfl
    · rfl
  · intro hok
    rw [send_client_request_posted]
    refine ⟨send_wr_of count ctx K.OPC_SEND_ONLY msg_sz, ?_, hs⟩
    simp [hok]
  · rw [send_client_request_fails_iff]
    simp

/-- Instance of C2: a request of 2000000 bytes against 1 MiB buffers is posted with
the buffer capacity as its length. -/
theorem send_client_request_clamps_length_witness :
    ctx_sample.recv_client_buf_sz < 4294967296 ∧ ctx_sample.send_client_buf_sz < 4294967296 ∧
    ∃ wr, (send_client_request shared_sample transport_ok 0 ctx_sample
              shared_sample.OPC_SEND_ONLY 2000000).posted.head? =
            some (.ibv_post_recv ctx_sample.cm_id wr) ∧
          wr.sg_list.length = min 2000000 ctx_sample.recv_client_buf_sz :=
  ⟨by decide, by decide,
   (send_client_request_clamps_length shared_sample transport_ok 0 ctx_sample 2000000
      (by decide) (by decide)).1⟩

/-! ## Responses -/

/-- Within both regions `memcmp` returns a value. -/
theorem memcmp_returns (n : Nat) : ∀ (s r : List Byte), n ≤ s.length → n ≤ r.length →
    ∃ v, memcmp s r n = some v := by
  induction n with
  | zero => intro s r _ _; exact ⟨0, by simp [memcmp]⟩
  | succ n ih =>
    intro s r hs hr
    cases s with
    | nil => simp at hs
    | cons a s =>
      cases r with
      | nil => simp at hr
      | cons b r =>
        simp only [memcmp]
        by_cases hab : a = b
        · simpa [hab] using ih s r (by simpa using hs) (by simpa using hr)
        · exact ⟨(a.val : Int) - (b.val : Int), by simp [hab]⟩

/-- Within both regions `memcmp` returns 0 exactly when the first `n` bytes agree. -/
theorem memcmp_eq_zero_iff (n : Nat) : ∀ (s r : List Byte), n ≤ s.length → n ≤ r.length →
    (memcmp s r n = some 0 ↔ s.take n = r.take n) := by
  induction n with
  | zero => intro s r _ _; simp [memcmp]
  | succ n ih =>
    intro s r hs hr
    cases s with
    | nil => simp at hs
    | cons a s =>
      cases r with
      | nil => simp at hr
      | cons b r =>
        simp only [memcmp, List.take_succ_cons, List.cons.injEq]
        by_cases hab : a = b
        · simp [hab, ih s r (by simpa using hs) (by simpa using hr)]
        · have hne : (a.val : Int) - (b.val : Int) ≠ 0 := by
            intro h
            apply hab
            apply Fin.ext
            omega
          simp [hab, hne]

/-- C3: when `msg_sz` exceeds neither mapped buffer, `process_client_response` returns a
value, that value is 0 exactly when the first `msg_sz` bytes of the send buffer equal the
first `msg_sz` bytes of the receive buffer, the opcode plays no part, and after an echo
peer has copied the first `msg_sz` bytes of the send buffer into the receive buffer the
call returns 0. -/
theorem process_client_response_zero_iff_equal (mem : Memory) (ctx : client_ctx_t)
    (opc : Int) (msg_sz : Nat) (s r : List Byte)
    (hs : mem ctx.send_client_buf = some s) (hr : mem ctx.recv_client_buf = some r)
    (hls : msg_sz ≤ s.length) (hlr : msg_sz ≤ r.length) :
    (∃ v, process_client_response mem ctx opc msg_sz = some v) ∧
    (process_client_response mem ctx opc msg_sz = some 0 ↔ s.take msg_sz = r.take msg_sz) ∧
    (∀ other_opc, process_client_response mem ctx other_opc msg_sz =
      process_client_response mem ctx opc msg_sz) ∧
    process_client_response (echo_reply mem ctx msg_sz) ctx opc msg_sz = some 0 := by
  refine ⟨?_, ?_, fun _ => rfl, ?_⟩
  · simpa [process_client_response, hs, hr] using memcmp_returns msg_sz s r hls hlr
  · simpa [process_client_response, hs, hr] using memcmp_eq_zero_iff msg_sz s r hls hlr
  · have hlen : msg_sz ≤ (s.take msg_sz ++ r.drop msg_sz).length := by
      simp only [List.length_append, List.length_take, List.length_drop]
      omega
    by_cases hsame : ctx.send_client_buf = ctx.recv_client_buf
    · have hsr : s = r := by
        rw [hsame, hr] at hs
        exact (Option.some.inj hs).symm
      subst hsr
      simp [process_client_response, echo_reply, hsame, hr,
        (memcmp_eq_zero_iff msg_sz s s hls hls)]
    · simp only [process_client_response, echo_reply, hsame, hs, hr, ↓reduceIte]
      rw [memcmp_eq_zero_iff msg_sz _ _ hls hlen]
      simp [List.take_append_of_le_length, hls]

/-- Instance of C3 on the sample memory: the first two bytes of the buffers agree. -/
theorem process_client_response_zero_iff_equal_witness :
    mem_sample ctx_sample.send_client_buf = some [1, 2, 3, 4] ∧
    mem_sample ctx_sample.recv_client_buf = some [1, 2, 9, 9] ∧
    process_client_response mem_sample ctx_sample 0 2 = some 0 ∧
    process_client_response (echo_reply mem_sample ctx_sample 2) ctx_sample 0 2 = some 0 :=
  ⟨by decide, by decide,
   (process_client_response_zero_iff_equal mem_sample ctx_sample 0 2 [1, 2, 3, 4] [1, 2, 9, 9]
      (by decide) (by decide) (by decide) (by decide)).2.1.mpr (by decide),
   (process_client_response_zero_iff_equal mem_sample ctx_sample 0 2 [1, 2, 3, 4] [1, 2, 9, 9]
      (by decide) (by decide) (by decide) (by decide)).2.2.2⟩

/-! ## The completion poller -/

/-- Handling a completion whose kind is not a receive leaves the context as it is and
signals nobody, whatever the status and the request id. -/
theorem client_wcq_monitor_wc_other_kind (ctx : client_ctx_t) (wc : ibv_wc)
    (h1 : wc.opcode ≠ .IBV_WC_RECV) (h2 : wc.opcode ≠ .IBV_WC_RECV_RDMA_WITH_IMM) :
    (client_wcq_monitor_wc ctx wc).ctx = some ctx ∧ (client_wcq_monitor_wc ctx wc).signals = 0 := by
  unfold client_wcq_monitor_wc
  cases hop : wc.opcode <;> simp_all

/-- Handling a completion of a receive kind with a request id inside the table sets that
flag and signals once, whatever the status. -/
theorem client_wcq_monitor_wc_recv_kind (ctx : client_ctx_t) (wc : ibv_wc)
    (hk : wc.opcode = .IBV_WC_RECV ∨ wc.opcode = .IBV_WC_RECV_RDMA_WITH_IMM)
    (hw : wc.wr_id < MAX_SEND_WR) :
    (client_wcq_monitor_wc ctx wc).ctx =
      some { ctx with rtt_done := Function.update ctx.rtt_done ⟨wc.wr_id, hw⟩ true } ∧
    (client_wcq_monitor_wc ctx wc).signals = 1 := by
  unfold client_wcq_monitor_wc
  rcases hk with hk | hk <;> simp [hk, hw]

/-- C5, as the code has it: for every work completion whose status is not success the
failure is reported; if its kind is not a receive kind the handling leaves every
completion flag unchanged and signals nobody, whatever the request id; if its kind is
receive or receive-with-notify and its request id lies in the table, the flag of that
request is set and every other flag is unchanged, exactly as for a successful
completion. -/
theorem client_wcq_monitor_failed_completion (ctx : client_ctx_t) (wc : ibv_wc)
    (hst : wc.status ≠ IBV_WC_SUCCESS) :
    (client_wcq_monitor_wc ctx wc).reported = true ∧
    ((wc.opcode ≠ .IBV_WC_RECV ∧ wc.opcode ≠ .IBV_WC_RECV_RDMA_WITH_IMM) →
      (client_wcq_monitor_wc ctx wc).ctx = some ctx ∧
      (client_wcq_monitor_wc ctx wc).signals = 0) ∧
    ((wc.opcode = .IBV_WC_RECV ∨ wc.opcode = .IBV_WC_RECV_RDMA_WITH_IMM) →
      ∀ hw : wc.wr_id < MAX_SEND_WR,
        ∃ ctx1, (client_wcq_monitor_wc ctx wc).ctx = some ctx1 ∧
          ctx1.rtt_done ⟨wc.wr_id, hw⟩ = true ∧
          (∀ i, i ≠ ⟨wc.wr_id, hw⟩ → ctx1.rtt_done i = ctx.rtt_done i)) ∧
    (client_wcq_monitor_wc ctx wc).ctx =
      (client_wcq_monitor_wc ctx { wc with status := IBV_WC_SUCCESS }).ctx := by
  refine ⟨?_, fun h => client_wcq_monitor_wc_other_kind ctx wc h.1 h.2, ?_, ?_⟩
  · unfold client_wcq_monitor_wc
    cases hop : wc.opcode <;> simp [hst] <;> split_ifs <;> simp [hst]
  · intro hk hw
    refine ⟨_, (client_wcq_monitor_wc_recv_kind ctx wc hk hw).1, ?_, ?_⟩
    · simp
    · intro i hi
      simp [Function.update, hi]
  · unfold client_wcq_monitor_wc
    cases hop : wc.opcode <;> simp <;> split_ifs <;> rfl

/-- Instance of C5 as amended: a flushed send completion changes nothing. -/
theorem client_wcq_monitor_failed_completion_witness :
    (5 : Nat) ≠ IBV_WC_SUCCESS ∧
    (client_wcq_monitor_wc ctx_sample ⟨7, 5, .IBV_WC_SEND⟩).reported = true ∧
    (client_wcq_monitor_wc ctx_sample ⟨7, 5, .IBV_WC_SEND⟩).ctx = some ctx_sample :=
  ⟨by decide,
   (client_wcq_monitor_failed_completion ctx_sample ⟨7, 5, .IBV_WC_SEND⟩ (by decide)).1,
   ((client_wcq_monitor_failed_completion ctx_sample ⟨7, 5, .IBV_WC_SEND⟩ (by decide)).2.1
      ⟨by decide, by decide⟩).1⟩

/-- C5 as stated fails: a completion with failure status 5 (flushed), receive kind and
request id 7 is reported, and yet flag 7, clear before, is set after its handling. -/
theorem client_wcq_monitor_failed_recv_sets_flag :
    (5 : Nat) ≠ IBV_WC_SUCCESS ∧
    ctx_sample.rtt_done ⟨7, by decide⟩ = false ∧
    (client_wcq_monitor_wc ctx_sample ⟨7, 5, .IBV_WC_RECV⟩).reported = true ∧
    ((client_wcq_monitor_wc ctx_sample ⟨7, 5, .IBV_WC_RECV⟩).ctx.map
        (fun c => c.rtt_done ⟨7, by decide⟩)) = some true := by
  refine ⟨by decide, rfl, rfl, ?_⟩
  simp [client_wcq_monitor_wc, MAX_SEND_WR]

/-- C6: for a successful completion with request id `w < 1024`: a receive or
receive-with-notify completion sets flag `w`, leaves every other flag and every other
field of the context unchanged and signals once; a send or remote-write completion
changes nothing. -/
theorem client_wcq_monitor_successful_completion (ctx : client_ctx_t) (wc : ibv_wc)
    (hst : wc.status = IBV_WC_SUCCESS) (hw : wc.wr_id < MAX_SEND_WR) :
    (client_wcq_monitor_wc ctx wc).reported = false ∧
    ((wc.opcode = .IBV_WC_RECV ∨ wc.opcode = .IBV_WC_RECV_RDMA_WITH_IMM) →
      ∃ ctx1, (client_wcq_monitor_wc ctx wc).ctx = some ctx1 ∧
        ctx1.rtt_done ⟨wc.wr_id, hw⟩ = true ∧
        (∀ i, i ≠ ⟨wc.wr_id, hw⟩ → ctx1.rtt_done i = ctx.rtt_done i) ∧
        { ctx1 with rtt_done := ctx.rtt_done } = ctx ∧
        (client_wcq_monitor_wc ctx wc).signals = 1) ∧
    ((wc.opcode = .IBV_WC_SEND ∨ wc.opcode = .IBV_WC_RDMA_WRITE) →
      (client_wcq_monitor_wc ctx wc).ctx = some ctx ∧
      (client_wcq_monitor_wc ctx wc).signals = 0) := by
  refine ⟨?_, ?_, ?_⟩
  · unfold client_wcq_monitor_wc
    cases hop : wc.opcode <;> simp [hst] <;> split_ifs <;> simp [hst]
  · intro hk
    refine ⟨_, (client_wcq_monitor_wc_recv_kind ctx wc hk hw).1, ?_, ?_, rfl,
      (client_wcq_monitor_wc_recv_kind ctx wc hk hw).2⟩
    · simp
    · intro i hi
      simp [Function.update, hi]
  · intro hk
    apply client_wcq_monitor_wc_other_kind <;> rcases hk with hk | hk <;> simp [hk]

/-- Instance of C6: a successful receive completion for request 7. -/
theorem client_wcq_monitor_successful_completion_witness :
    (0 : Nat) = IBV_WC_SUCCESS ∧ (7 : Nat) < MAX_SEND_WR ∧
    ∃ ctx1, (client_wcq_monitor_wc ctx_sample ⟨7, 0, .IBV_WC_RECV⟩).ctx = some ctx1 ∧
      ctx1.rtt_done ⟨7, by decide⟩ = true :=
  ⟨rfl, by decide,
   match (client_wcq_monitor_successful_completion ctx_sample ⟨7, 0, .IBV_WC_RECV⟩ rfl
      (by decide)).2.1 (Or.inl rfl) with
   | ⟨ctx1, h1, h2, _⟩ => ⟨ctx1, h1, h2⟩⟩

/-! ## The connection event monitor -/

/-- C7: one step of the event monitor follows the transition table: address-resolved
stores the identifier of the event as address handle, route-resolved stores it as connect
handle, established sets `is_connected`, disconnected clears it, each changing nothing
else; an event of any other kind leaves the whole context, and so the two handles and
`is_connected`, unchanged. -/
theorem client_event_monitor_step_table (ctx : client_ctx_t) (event : rdma_cm_event) :
    (event.event = .RDMA_CM_EVENT_ADDR_RESOLVED →
      client_event_monitor_step ctx event = { ctx with addr_id := event.id }) ∧
    (event.event = .RDMA_CM_EVENT_ROUTE_RESOLVED →
      client_event_monitor_step ctx event = { ctx with connect_id := event.id }) ∧
    (event.event = .RDMA_CM_EVENT_ESTABLISHED →
      client_event_monitor_step ctx event = { ctx with is_connected := true }) ∧
    (event.event = .RDMA_CM_EVENT_DISCONNECTED →
      client_event_monitor_step ctx event = { ctx with is_connected := false }) ∧
    ((event.event ≠ .RDMA_CM_EVENT_ADDR_RESOLVED ∧ event.event ≠ .RDMA_CM_EVENT_ROUTE_RESOLVED ∧
      event.event ≠ .RDMA_CM_EVENT_ESTABLISHED ∧ event.event ≠ .RDMA_CM_EVENT_DISCONNECTED) →
      client_event_monitor_step ctx event = ctx ∧
      (client_event_monitor_step ctx event).addr_id = ctx.addr_id ∧
      (client_event_monitor_step ctx event).connect_id = ctx.connect_id ∧
      (client_event_monitor_step ctx event).is_connected = ctx.is_connected) := by
  unfold client_event_monitor_step
  cases hev : event.event <;> simp

/-! ## The ring of request slots -/

/-- The slot id computed from a counter that has not gone negative is the counter
modulo the ring capacity. -/
theorem slot_id_of_nonneg (k : Nat) :
    to_uint64 (Int.tmod (k : Int) MAX_SEND_WR) = k % 1024 := by
  unfold to_uint64 MAX_SEND_WR
  rw [Int.tmod_eq_emod (by omega) (by norm_num)]
  omega

/-- The counter after `k` increments from 0, as long as at most `2^31` of them. -/
theorem wrap_int32_succ (k : Nat) :
    wrap_int32 (wrap_int32 (k : Int) + 1) = wrap_int32 ((k + 1 : Nat) : Int) := by
  unfold wrap_int32
  omega

/-- Before the counter overflows it is the number of requests issued. -/
theorem wrap_int32_small (k : Nat) (hk : k < 2147483648) : wrap_int32 (k : Int) = k := by
  unfold wrap_int32
  omega

/-- On a serving transport the wait on a slot ends with that flag set and nothing else
touched. -/
theorem wait_rtt_done_served (id : Fin MAX_SEND_WR) (ctx : client_ctx_t) (w : Nat) :
    wait_rtt_done id ctx [⟨w, IBV_WC_SUCCESS, .IBV_WC_SEND⟩, ⟨id.val, IBV_WC_SUCCESS, .IBV_WC_RECV⟩]
      = .woken { ctx with rtt_done := Function.update ctx.rtt_done id true } := by
  simp [wait_rtt_done, client_wcq_monitor_batch, client_wcq_monitor_wc]

/-- A request whose slot id lies in the table and whose flag is clear, issued on a
serving transport: it returns 0, bumps the counter and leaves the context as it was. -/
theorem send_client_request_served (K : client_server_shared) (hK : K.API_STATUS 0 = false)
    (count : Int) (ctx : client_ctx_t) (msg_sz : Nat)
    (hslot : to_uint64 (Int.tmod count MAX_SEND_WR) < MAX_SEND_WR)
    (hclear : ctx.rtt_done ⟨to_uint64 (Int.tmod count MAX_SEND_WR), hslot⟩ = false) :
    (send_client_request K transport_ok count ctx K.OPC_SEND_ONLY msg_sz).outcome = .returned 0 ∧
    (send_client_request K transport_ok count ctx K.OPC_SEND_ONLY msg_sz).count =
      wrap_int32 (count + 1) ∧
    (send_client_request K transport_ok count ctx K.OPC_SEND_ONLY msg_sz).ctx = ctx := by
  have hrestore : Function.update (Function.update ctx.rtt_done
      ⟨to_uint64 (Int.tmod count MAX_SEND_WR), hslot⟩ true)
      ⟨to_uint64 (Int.tmod count MAX_SEND_WR), hslot⟩ false = ctx.rtt_done := by
    rw [Function.update_idem, ← hclear, Function.update_eq_self]
  have hslot1 : (recv_wr_of count ctx msg_sz).wr_id < MAX_SEND_WR := hslot
  have hwait := wait_rtt_done_served ⟨(recv_wr_of count ctx msg_sz).wr_id, hslot1⟩ ctx
    (send_wr_of count ctx K.OPC_SEND_ONLY msg_sz).wr_id
  have hpost : transport_ok.completions
      [posted_wr.ibv_post_recv ctx.cm_id (recv_wr_of count ctx msg_sz),
       posted_wr.ibv_post_send ctx.cm_id (send_wr_of count ctx K.OPC_SEND_ONLY msg_sz)] =
      [⟨(send_wr_of count ctx K.OPC_SEND_ONLY msg_sz).wr_id, IBV_WC_SUCCESS, .IBV_WC_SEND⟩,
       ⟨(recv_wr_of count ctx msg_sz).wr_id, IBV_WC_SUCCESS, .IBV_WC_RECV⟩] := rfl
  have hrc1 : K.API_STATUS transport_ok.post_recv_rc = false := hK
  have hrc2 : K.API_STATUS transport_ok.post_send_rc = false := hK
  simp only [send_client_request, ne_eq, not_true_eq_false, ↓reduceIte, hrc1, hrc2,
    Bool.false_eq_true, hslot1, ↓reduceDIte, hpost, hwait]
  refine ⟨trivial, trivial, ?_⟩
  show { ctx with rtt_done := _ } = ctx
  rw [show Function.update (Function.update ctx.rtt_done
      ⟨(recv_wr_of count ctx msg_sz).wr_id, hslot1⟩ true)
      ⟨(recv_wr_of count ctx msg_sz).wr_id, hslot1⟩ false = ctx.rtt_done from hrestore]

/-- While the counter has wrapped at most once onto a multiple of the capacity, that is for
the first `2^31 + 1` requests, the slot id is the request number modulo the capacity. -/
theorem slot_id_before_overflow (k : Nat) (hk : k ≤ 2147483648) :
    to_uint64 (Int.tmod (wrap_int32 (k : Int)) MAX_SEND_WR) = k % 1024 := by
  rcases Nat.lt_or_ge k 2147483648 with h | h
  · rw [wrap_int32_small k h, slot_id_of_nonneg]
  · have hk2 : k = 2147483648 := by omega
    subst hk2
    decide

/-- The state a run of served requests is in after `k ≤ 2^31 + 1` requests: the counter is
the wrapped request number and the context is as at the start. -/
theorem state_after_eq (K : client_server_shared) (hK : K.API_STATUS 0 = false)
    (ctx : client_ctx_t) (hclear : ∀ i, ctx.rtt_done i = false) (msg_sz : Nat) (k : Nat)
    (hk : k ≤ 2147483649) :
    state_after K ctx msg_sz k = some (wrap_int32 (k : Int), ctx) := by
  induction k with
  | zero => rfl
  | succ k ih =>
    have hslot : to_uint64 (Int.tmod (wrap_int32 (k : Int)) MAX_SEND_WR) < MAX_SEND_WR := by
      rw [slot_id_before_overflow k (by omega)]
      unfold MAX_SEND_WR
      omega
    obtain ⟨h1, h2, h3⟩ := send_client_request_served K hK (wrap_int32 (k : Int)) ctx msg_sz
      hslot (hclear _)
    simp only [state_after, ih (by omega), h1, h2, h3, ↓reduceIte]
    rw [wrap_int32_succ]

/-- Ring reuse up to the overflow of the counter: for every `k ≤ 2^31`, in a run of served
requests that starts with the counter at 0 and all flags clear, the `k`-th request finds
the flag of slot `k mod 1024` clear, tags its receive and its send descriptor with
`k mod 1024`, and returns 0. -/
theorem ring_reuse_before_overflow (K : client_server_shared) (hK : K.API_STATUS 0 = false)
    (ctx : client_ctx_t) (hclear : ∀ i, ctx.rtt_done i = false) (msg_sz : Nat) (k : Nat)
    (hk : k ≤ 2147483648) :
    ∃ count ctx1 r,
      state_after K ctx msg_sz k = some (count, ctx1) ∧
      ctx1.rtt_done ⟨k % 1024, Nat.mod_lt k (by decide)⟩ = false ∧
      nth_request K ctx msg_sz k = some r ∧
      r.posted.map posted_wr.wr_id = [k % 1024, k % 1024] ∧
      r.outcome = .returned 0 := by
  have hst := state_after_eq K hK ctx hclear msg_sz k (by omega)
  have hid := slot_id_before_overflow k hk
  have hslot : to_uint64 (Int.tmod (wrap_int32 (k : Int)) MAX_SEND_WR) < MAX_SEND_WR := by
    rw [hid]
    unfold MAX_SEND_WR
    omega
  obtain ⟨h1, -, -⟩ := send_client_request_served K hK (wrap_int32 (k : Int)) ctx msg_sz
    hslot (hclear _)
  refine ⟨_, _, _, hst, hclear _, by simp [nth_request, hst], ?_, h1⟩
  rw [send_client_request_posted]
  have hrc : K.API_STATUS transport_ok.post_recv_rc = false := hK
  simp [hrc, posted_wr.wr_id, recv_wr_of, send_wr_of, hid]

/-- Request number 1024 (the 1025th) of a served run reuses slot 0. -/
theorem ring_reuse_before_overflow_witness :
    shared_sample.API_STATUS 0 = false ∧ (∀ i, ctx_sample.rtt_done i = false) ∧
    (1024 : Nat) ≤ 2147483648 ∧
    ∃ count ctx1 r,
      state_after shared_sample ctx_sample 64 1024 = some (count, ctx1) ∧
      ctx1.rtt_done ⟨1024 % 1024, Nat.mod_lt 1024 (by decide)⟩ = false ∧
      nth_request shared_sample ctx_sample 64 1024 = some r ∧
      r.posted.map posted_wr.wr_id = [1024 % 1024, 1024 % 1024] ∧
      r.outcome = .returned 0 :=
  ⟨by decide, fun _ => rfl, by decide,
   ring_reuse_before_overflow shared_sample (by decide) ctx_sample (fun _ => rfl) 64 1024
     (by decide)⟩

/-- C4 at request number `2^31 + 1` of a served run of 64-byte requests on the sample
client: the counter, a 32-bit `int`, has wrapped to `-2147483647`; C's remainder by 1024 is
`-1023`; both descriptors are tagged `2^64 - 1023` instead of slot
`(2^31 + 1) mod 1024 = 1`, and the index into `rtt_done` falls outside the table. -/
theorem ring_slot_lost_after_overflow :
    state_after shared_sample ctx_sample 64 2147483649 = some (-2147483647, ctx_sample) ∧
    (nth_request shared_sample ctx_sample 64 2147483649).map
        (fun r => (r.posted.map posted_wr.wr_id, r.outcome)) =
      some ([18446744073709550593, 18446744073709550593], .fault) ∧
    2147483649 % 1024 = 1 := by
  have hst := state_after_eq shared_sample (by decide) ctx_sample (fun _ => rfl) 64 2147483649
    (by decide)
  have hw : wrap_int32 ((2147483649 : Nat) : Int) = -2147483647 := by decide
  rw [hw] at hst
  refine ⟨hst, ?_, by decide⟩
  simp only [nth_request, hst, Option.map_some']
  rfl

/-! ## Data preparation -/

/-- C8, as the code has it: with `OPC_RDMA_READ` or `OPC_RDMA_WRITE`, `prepare_client_data`
returns -1 in every case, but the opcode is looked at last: when both mappings, both
registrations and the thread creation succeed, the call has by then recorded both buffers
with their sizes and both registration handles in the context, started the completion
poller, and it releases nothing. -/
theorem prepare_client_data_rdma_opcode (K : client_server_shared) (env : prepare_env)
    (ctx : client_ctx_t) (opc : Int)
    (hopc : opc = K.OPC_RDMA_READ ∨ opc = K.OPC_RDMA_WRITE) :
    (prepare_client_data K env ctx opc).rc = -1 ∧
    ∀ send_buf recv_buf, env.send_buf = some send_buf → env.recv_buf = some recv_buf →
      env.send_buf_mr ≠ 0 → env.recv_buf_mr ≠ 0 → K.API_STATUS env.wcq_thread_rc = false →
      (prepare_client_data K env ctx opc).ctx =
        { ctx with send_client_buf := send_buf, send_client_buf_sz := K.MAX_MR_SZ,
                   recv_client_buf := recv_buf, recv_client_buf_sz := K.MAX_MR_SZ,
                   send_buf_mr := env.send_buf_mr, recv_buf_mr := env.recv_buf_mr,
                   wcq_fn := true, wcq_thread := true } ∧
      (prepare_client_data K env ctx opc).calls =
        [.mmap K.MAX_MR_SZ (some send_buf), .mmap K.MAX_MR_SZ (some recv_buf),
         .ibv_reg_mr ctx.pd send_buf K.MAX_MR_SZ env.send_buf_mr,
         .ibv_reg_mr ctx.pd recv_buf K.MAX_MR_SZ env.recv_buf_mr,
         .randomize_buf K.MAX_MR_SZ,
         .pthread_create .client_wcq_monitor env.wcq_thread_rc] ∧
      (prepare_client_data K env ctx opc).calls.filterMap released = [] := by
  constructor
  · simp only [prepare_client_data]
    split
    · rfl
    · split
      · rfl
      · split_ifs <;> rfl
  · intro send_buf recv_buf h1 h2 h3 h4 h5
    simp [prepare_client_data, h1, h2, h3, h4, h5, hopc, released]

/-- Instance of C8 as amended, at `OPC_RDMA_WRITE` of the sample header. -/
theorem prepare_client_data_rdma_opcode_witness :
    (shared_sample.OPC_RDMA_WRITE = shared_sample.OPC_RDMA_READ ∨
      shared_sample.OPC_RDMA_WRITE = shared_sample.OPC_RDMA_WRITE) ∧
    (prepare_client_data shared_sample prepare_env_ok ctx_connected
      shared_sample.OPC_RDMA_WRITE).rc = -1 :=
  ⟨Or.inr rfl,
   (prepare_client_data_rdma_opcode shared_sample prepare_env_ok ctx_connected
      shared_sample.OPC_RDMA_WRITE (Or.inr rfl)).1⟩

/-- C8 as stated fails: on a system where every step succeeds, the call with
`OPC_RDMA_READ` returns -1 and yet the context is not as before: both buffers and both
registration handles are recorded, the poller has been started, two mappings, two
registrations and the poller thread were acquired and none was released. -/
theorem prepare_client_data_rdma_partial :
    (prepare_client_data shared_sample prepare_env_ok ctx_connected
      shared_sample.OPC_RDMA_READ).rc = -1 ∧
    (prepare_client_data shared_sample prepare_env_ok ctx_connected
      shared_sample.OPC_RDMA_READ).ctx ≠ ctx_connected ∧
    ctx_connected.send_client_buf = 0 ∧
    (prepare_client_data shared_sample prepare_env_ok ctx_connected
      shared_sample.OPC_RDMA_READ).ctx.send_client_buf = 4096 ∧
    (prepare_client_data shared_sample prepare_env_ok ctx_connected
      shared_sample.OPC_RDMA_READ).ctx.recv_client_buf = 2097152 ∧
    (prepare_client_data shared_sample prepare_env_ok ctx_connected
      shared_sample.OPC_RDMA_READ).ctx.send_buf_mr = 2 ∧
    (prepare_client_data shared_sample prepare_env_ok ctx_connected
      shared_sample.OPC_RDMA_READ).ctx.recv_buf_mr = 3 ∧
    ctx_connected.wcq_thread = false ∧
    (prepare_client_data shared_sample prepare_env_ok ctx_connected
      shared_sample.OPC_RDMA_READ).ctx.wcq_thread = true ∧
    (prepare_client_data shared_sample prepare_env_ok ctx_connected
      shared_sample.OPC_RDMA_READ).calls.filterMap (acquired shared_sample) =
      [.mapping 4096 1048576, .mapping 2097152 1048576, .mr 2, .mr 3,
       .thread .client_wcq_monitor] ∧
    (prepare_client_data shared_sample prepare_env_ok ctx_connected
      shared_sample.OPC_RDMA_READ).calls.filterMap released = [] := by
  refine ⟨rfl, ?_, rfl, rfl, rfl, rfl, rfl, rfl, rfl, by decide, by decide⟩
  intro h
  have h2 := congrArg client_ctx_t.send_client_buf h
  exact absurd h2 (by decide)

/-- C9, as the code has it: when both mappings succeed and the registration of the send
buffer or of the receive buffer fails, `prepare_client_data` returns -1 having released
exactly what it acquired (both mappings, and the send registration when it is the receive
registration that failed) and without starting the poller; the context, however, keeps the
addresses and sizes of the two unmapped buffers and the registration handles the call
stored (the null handle of the failed registration and, after a failed receive
registration, the handle of the deregistered send registration). -/
theorem prepare_client_data_registration_fails (K : client_server_shared)
    (env : prepare_env) (ctx : client_ctx_t) (opc : Int) (send_buf recv_buf : Nat)
    (hsend : env.send_buf = some send_buf) (hrecv : env.recv_buf = some recv_buf)
    (hreg : env.send_buf_mr = 0 ∨ env.recv_buf_mr = 0) :
    (prepare_client_data K env ctx opc).rc = -1 ∧
    (prepare_client_data K env ctx opc).calls.filterMap released =
      (prepare_client_data K env ctx opc).calls.filterMap (acquired K) ∧
    (prepare_client_data K env ctx opc).calls.filterMap released =
      (if env.send_buf_mr = 0 then
        [.mapping send_buf K.MAX_MR_SZ, .mapping recv_buf K.MAX_MR_SZ]
       else
        [.mapping send_buf K.MAX_MR_SZ, .mapping recv_buf K.MAX_MR_SZ, .mr env.send_buf_mr]) ∧
    (prepare_client_data K env ctx opc).ctx =
      (if env.send_buf_mr = 0 then
        { ctx with send_client_buf := send_buf, send_client_buf_sz := K.MAX_MR_SZ,
                   recv_client_buf := recv_buf, recv_client_buf_sz := K.MAX_MR_SZ,
                   send_buf_mr := 0 }
       else
        { ctx with send_client_buf := send_buf, send_client_buf_sz := K.MAX_MR_SZ,
                   recv_client_buf := recv_buf, recv_client_buf_sz := K.MAX_MR_SZ,
                   send_buf_mr := env.send_buf_mr, recv_buf_mr := 0 }) := by
  by_cases h1 : env.send_buf_mr = 0
  · simp [prepare_client_data, hsend, hrecv, h1, released, acquired]
  · have h2 : env.recv_buf_mr = 0 := by
      rcases hreg with h | h
      · exact absurd h h1
      · exact h
    simp [prepare_client_data, hsend, hrecv, h1, h2, released, acquired]

/-- Instance of C9 as amended: the receive registration fails. -/
theorem prepare_client_data_registration_fails_witness :
    prepare_env_recv_reg_fails.send_buf = some 4096 ∧
    prepare_env_recv_reg_fails.recv_buf = some 2097152 ∧
    (prepare_env_recv_reg_fails.send_buf_mr = 0 ∨ prepare_env_recv_reg_fails.recv_buf_mr = 0) ∧
    (prepare_client_data shared_sample prepare_env_recv_reg_fails ctx_connected 0).rc = -1 ∧
    (prepare_client_data shared_sample prepare_env_recv_reg_fails ctx_connected
      0).calls.filterMap released =
      (prepare_client_data shared_sample prepare_env_recv_reg_fails ctx_connected
        0).calls.filterMap (acquired shared_sample) :=
  ⟨rfl, rfl, Or.inr rfl,
   (prepare_client_data_registration_fails shared_sample prepare_env_recv_reg_fails
      ctx_connected 0 4096 2097152 rfl rfl (Or.inr rfl)).1,
   (prepare_client_data_registration_fails shared_sample prepare_env_recv_reg_fails
      ctx_connected 0 4096 2097152 rfl rfl (Or.inr rfl)).2.1⟩

/-- C9 as stated fails: when the receive registration fails the call returns -1 with
everything released, and yet the context, which recorded no buffer before, now records the
address and size of both unmapped buffers and the handle of the deregistered send
registration. -/
theorem prepare_client_data_stale_fields :
    (prepare_client_data shared_sample prepare_env_recv_reg_fails ctx_connected 0).rc = -1 ∧
    (prepare_client_data shared_sample prepare_env_recv_reg_fails ctx_connected
      0).calls.filterMap released = [.mapping 4096 1048576, .mapping 2097152 1048576, .mr 2] ∧
    (ctx_connected.send_client_buf = 0 ∧ ctx_connected.send_client_buf_sz = 0 ∧
      ctx_connected.recv_client_buf = 0 ∧ ctx_connected.recv_client_buf_sz = 0 ∧
      ctx_connected.send_buf_mr = 0) ∧
    (prepare_client_data shared_sample prepare_env_recv_reg_fails ctx_connected
      0).ctx.send_client_buf = 4096 ∧
    (prepare_client_data shared_sample prepare_env_recv_reg_fails ctx_connected
      0).ctx.send_client_buf_sz = 1048576 ∧
    (prepare_client_data shared_sample prepare_env_recv_reg_fails ctx_connected
      0).ctx.recv_client_buf = 2097152 ∧
    (prepare_client_data shared_sample prepare_env_recv_reg_fails ctx_connected
      0).ctx.recv_client_buf_sz = 1048576 ∧
    (prepare_client_data shared_sample prepare_env_recv_reg_fails ctx_connected
      0).ctx.send_buf_mr = 2 := by
  refine ⟨rfl, by decide, ⟨rfl, rfl, rfl, rfl, rfl⟩, rfl, rfl, rfl, rfl, rfl⟩

/-! ## Connection setup -/

/-- The monitor leaves the transport handles of the context alone. -/
theorem client_event_monitor_step_handles (ctx : client_ctx_t) (event : rdma_cm_event) :
    (client_event_monitor_step ctx event).cm_id = ctx.cm_id ∧
    (client_event_monitor_step ctx event).channel = ctx.channel ∧
    (client_event_monitor_step ctx event).pd = ctx.pd ∧
    (client_event_monitor_step ctx event).scq = ctx.scq ∧
    (client_event_monitor_step ctx event).rcq = ctx.rcq ∧
    (client_event_monitor_step ctx event).verbs = ctx.verbs := by
  unfold client_event_monitor_step
  cases event.event <;> simp

/-- The same over a list of events. -/
theorem client_event_monitor_foldl_handles (events : List rdma_cm_event) :
    ∀ ctx : client_ctx_t,
      (events.foldl client_event_monitor_step ctx).cm_id = ctx.cm_id ∧
      (events.foldl client_event_monitor_step ctx).channel = ctx.channel ∧
      (events.foldl client_event_monitor_step ctx).pd = ctx.pd ∧
      (events.foldl client_event_monitor_step ctx).scq = ctx.scq ∧
      (events.foldl client_event_monitor_step ctx).rcq = ctx.rcq ∧
      (events.foldl client_event_monitor_step ctx).verbs = ctx.verbs := by
  induction events with
  | nil => intro ctx; exact ⟨rfl, rfl, rfl, rfl, rfl, rfl⟩
  | cons e rest ih =>
    intro ctx
    simp only [List.foldl_cons]
    obtain ⟨h1, h2, h3, h4, h5, h6⟩ := ih (client_event_monitor_step ctx e)
    obtain ⟨g1, g2, g3, g4, g5, g6⟩ := client_event_monitor_step_handles ctx e
    exact ⟨h1.trans g1, h2.trans g2, h3.trans g3, h4.trans g4, h5.trans g5, h6.trans g6⟩

/-- What the monitor stores depends only on what the three fields held before. -/
theorem client_event_monitor_foldl_congr (events : List rdma_cm_event) :
    ∀ c1 c2 : client_ctx_t, c1.addr_id = c2.addr_id → c1.connect_id = c2.connect_id →
      c1.is_connected = c2.is_connected →
      (events.foldl client_event_monitor_step c1).addr_id =
        (events.foldl client_event_monitor_step c2).addr_id ∧
      (events.foldl client_event_monitor_step c1).connect_id =
        (events.foldl client_event_monitor_step c2).connect_id ∧
      (events.foldl client_event_monitor_step c1).is_connected =
        (events.foldl client_event_monitor_step c2).is_connected := by
  induction events with
  | nil => intro c1 c2 h1 h2 h3; exact ⟨h1, h2, h3⟩
  | cons e rest ih =>
    intro c1 c2 h1 h2 h3
    simp only [List.foldl_cons]
    apply ih
    · unfold client_event_monitor_step; cases e.event <;> simp [h1]
    · unfold client_event_monitor_step; cases e.event <;> simp [h2]
    · unfold client_event_monitor_step; cases e.event <;> simp [h3]

/-- The connection identifier stored in the context survives the monitor. -/
theorem foldl_monitor_cm_id (events : List rdma_cm_event) (ctx : client_ctx_t) :
    (events.foldl client_event_monitor_step ctx).cm_id = ctx.cm_id :=
  (client_event_monitor_foldl_handles events ctx).1

/-- The event channel stored in the context survives the monitor. -/
theorem foldl_monitor_channel (events : List rdma_cm_event) (ctx : client_ctx_t) :
    (events.foldl client_event_monitor_step ctx).channel = ctx.channel :=
  (client_event_monitor_foldl_handles events ctx).2.1

/-- The protection domain stored in the context survives the monitor. -/
theorem foldl_monitor_pd (events : List rdma_cm_event) (ctx : client_ctx_t) :
    (events.foldl client_event_monitor_step ctx).pd = ctx.pd :=
  (client_event_monitor_foldl_handles events ctx).2.2.1

/-- The send completion queue stored in the context survives the monitor. -/
theorem foldl_monitor_scq (events : List rdma_cm_event) (ctx : client_ctx_t) :
    (events.foldl client_event_monitor_step ctx).scq = ctx.scq :=
  (client_event_monitor_foldl_handles events ctx).2.2.2.1

/-- The receive completion queue stored in the context survives the monitor. -/
theorem foldl_monitor_rcq (events : List rdma_cm_event) (ctx : client_ctx_t) :
    (events.foldl client_event_monitor_step ctx).rcq = ctx.rcq :=
  (client_event_monitor_foldl_handles events ctx).2.2.2.2.1

/-- The wait for the address handle ends once the monitor has stored one. -/
theorem wait_event_addr (events : List rdma_cm_event)
    (h : (events.foldl client_event_monitor_step calloc_ctx).addr_id ≠ 0)
    (ctx : client_ctx_t) (h1 : ctx.addr_id = 0) (h2 : ctx.connect_id = 0)
    (h3 : ctx.is_connected = false) :
    wait_event (fun c => !decide (c.addr_id = 0)) ctx events =
      some (events.foldl client_event_monitor_step ctx) := by
  have hc := (client_event_monitor_foldl_congr events ctx calloc_ctx h1 h2 h3).1
  simp [wait_event, hc, h]

/-- The wait for the connect handle ends once the monitor has stored one. -/
theorem wait_event_route (addr_events route_events : List rdma_cm_event)
    (h : (route_events.foldl client_event_monitor_step
      (addr_events.foldl client_event_monitor_step calloc_ctx)).connect_id ≠ 0)
    (ctx : client_ctx_t) (h1 : ctx.addr_id = 0) (h2 : ctx.connect_id = 0)
    (h3 : ctx.is_connected = false) :
    wait_event (fun c => !decide (c.connect_id = 0))
        (addr_events.foldl client_event_monitor_step ctx) route_events =
      some (route_events.foldl client_event_monitor_step
        (addr_events.foldl client_event_monitor_step ctx)) := by
  obtain ⟨g1, g2, g3⟩ := client_event_monitor_foldl_congr addr_events ctx calloc_ctx h1 h2 h3
  have hc := (client_event_monitor_foldl_congr route_events _ _ g1 g2 g3).2.1
  simp [wait_event, hc, h]

/-- Of the paired resources the release chain of a step is the acquisitions before it, in
reverse order. -/
theorem unwinding_paired (env : setup_env) (s : setup_step) :
    (unwinding env s).filter paired = ((acquisitions env s).filter paired).reverse := by
  cases s <;> simp [unwinding, acquisitions, paired]

/-- The only release outside the paired resources is the disconnect after a failed
connect. -/
theorem unwinding_unpaired (env : setup_env) (s : setup_step) :
    (unwinding env s).filter (fun r => !paired r) =
      if s = .connect then [.connection env.cm_id] else [] := by
  cases s <;> simp [unwinding, paired]

/-- Every acquisition outside the paired resources is the monitor thread or the queue
pair, and the release chain does not hold it. -/
theorem acquisitions_unpaired (env : setup_env) (s : setup_step) :
    ∀ r ∈ acquisitions env s, paired r = false →
      (r = .thread .client_event_monitor ∨ r = .qp env.cm_id) ∧ r ∉ unwinding env s := by
  cases s <;> simp [acquisitions, paired, unwinding]

/-- No resource is released twice. -/
theorem unwinding_nodup (env : setup_env) (s : setup_step) : (unwinding env s).Nodup := by
  cases s <;> simp [unwinding]

/-- C10, as the code has it: when step `s` of `setup_client` is the first to fail, the
call returns `NULL` after the releases from the label the code jumps to (`unwinding`),
each made once. Of the resources that have a releasing call in the function (context,
event channel, connection identifier, protection domain, completion queue) it releases
exactly those acquired before the failing step, in reverse order of acquisition, and none
that was not acquired. Beyond these, after a failed connect it calls `rdma_disconnect`
first, although no connection was acquired, and it never releases the event-monitor thread
or the queue pair acquired before the failing step. -/
theorem setup_client_unwinds (K : client_server_shared) (env : setup_env) (s : setup_step)
    (h : fails_first_at K env s) :
    (setup_client K env).outcome = .null ∧
    (setup_client K env).calls.filterMap released = unwinding env s ∧
    (setup_client K env).calls.filterMap (acquired K) = acquisitions env s ∧
    (unwinding env s).filter paired = ((acquisitions env s).filter paired).reverse ∧
    ((unwinding env s).filter (fun r => !paired r) =
      if s = .connect then [.connection env.cm_id] else []) ∧
    (∀ r ∈ acquisitions env s, paired r = false →
      (r = .thread .client_event_monitor ∨ r = .qp env.cm_id) ∧ r ∉ unwinding env s) ∧
    (unwinding env s).Nodup := by
  have main : (setup_client K env).outcome = .null ∧
      (setup_client K env).calls.filterMap released = unwinding env s ∧
      (setup_client K env).calls.filterMap (acquired K) = acquisitions env s := by
    obtain ⟨hv, hc, hprev, hfail⟩ := h
    cases s
    case event_channel =>
      simp [step_fails] at hfail
      simp [setup_client, hv, hc, hfail, calloc_ctx, foldl_monitor_cm_id, foldl_monitor_channel, foldl_monitor_pd,
        foldl_monitor_scq, foldl_monitor_rcq, released, acquired, unwinding, acquisitions,
        disconnect_free_cq, free_cq, free_pd, free_cm_id, free_channel, free_ctx_fields]
    case create_id =>
      simp [setup_steps, List.takeWhile, step_done, step_fails] at hprev hfail
      have hch := hprev
      simp [setup_client, hv, hc, hch, hfail,
        calloc_ctx, foldl_monitor_cm_id, foldl_monitor_channel, foldl_monitor_pd,
        foldl_monitor_scq, foldl_monitor_rcq, released, acquired, unwinding, acquisitions,
        disconnect_free_cq, free_cq, free_pd, free_cm_id, free_channel, free_ctx_fields]
    case event_monitor =>
      simp [setup_steps, List.takeWhile, step_done, step_fails] at hprev hfail
      obtain ⟨hch, hid⟩ := hprev
      simp [setup_client, hv, hc, hch, hid, hfail,
        calloc_ctx, foldl_monitor_cm_id, foldl_monitor_channel, foldl_monitor_pd,
        foldl_monitor_scq, foldl_monitor_rcq, released, acquired, unwinding, acquisitions,
        disconnect_free_cq, free_cq, free_pd, free_cm_id, free_channel, free_ctx_fields]
    case bind =>
      simp [setup_steps, List.takeWhile, step_done, step_fails] at hprev hfail
      obtain ⟨hch, hid, hthr⟩ := hprev
      simp [setup_client, hv, hc, hch, hid, hthr, hfail,
        calloc_ctx, foldl_monitor_cm_id, foldl_monitor_channel, foldl_monitor_pd,
        foldl_monitor_scq, foldl_monitor_rcq, released, acquired, unwinding, acquisitions,
        disconnect_free_cq, free_cq, free_pd, free_cm_id, free_channel, free_ctx_fields]
    case resolve_addr =>
      simp [setup_steps, List.takeWhile, step_done, step_fails] at hprev hfail
      obtain ⟨hch, hid, hthr, hbind⟩ := hprev
      simp [setup_client, hv, hc, hch, hid, hthr, hbind, hfail,
        calloc_ctx, foldl_monitor_cm_id, foldl_monitor_channel, foldl_monitor_pd,
        foldl_monitor_scq, foldl_monitor_rcq, released, acquired, unwinding, acquisitions,
        disconnect_free_cq, free_cq, free_pd, free_cm_id, free_channel, free_ctx_fields]
    case resolve_route =>
      simp [setup_steps, List.takeWhile, step_done, step_fails] at hprev hfail
      obtain ⟨hch, hid, hthr, hbind, ⟨hra, hwa⟩⟩ := hprev
      have w1 := wait_event_addr env.addr_events hwa
      simp [setup_client, hv, hc, hch, hid, hthr, hbind, hra, hfail, w1,
        calloc_ctx, foldl_monitor_cm_id, foldl_monitor_channel, foldl_monitor_pd,
        foldl_monitor_scq, foldl_monitor_rcq, released, acquired, unwinding, acquisitions,
        disconnect_free_cq, free_cq, free_pd, free_cm_id, free_channel, free_ctx_fields]
    case alloc_pd =>
      simp [setup_steps, List.takeWhile, step_done, step_fails] at hprev hfail
      obtain ⟨hch, hid, hthr, hbind, ⟨hra, hwa⟩, ⟨hrr, hwr⟩⟩ := hprev
      have w1 := wait_event_addr env.addr_events hwa
      have w2 := wait_event_route env.addr_events env.route_events hwr
      simp [setup_client, hv, hc, hch, hid, hthr, hbind, hra, hrr, hfail, w1, w2,
        calloc_ctx, foldl_monitor_cm_id, foldl_monitor_channel, foldl_monitor_pd,
        foldl_monitor_scq, foldl_monitor_rcq, released, acquired, unwinding, acquisitions,
        disconnect_free_cq, free_cq, free_pd, free_cm_id, free_channel, free_ctx_fields]
    case create_cq =>
      simp [setup_steps, List.takeWhile, step_done, step_fails] at hprev hfail
      obtain ⟨hch, hid, hthr, hbind, ⟨hra, hwa⟩, ⟨hrr, hwr⟩, hpd⟩ := hprev
      have w1 := wait_event_addr env.addr_events hwa
      have w2 := wait_event_route env.addr_events env.route_events hwr
      simp [setup_client, hv, hc, hch, hid, hthr, hbind, hra, hrr, hpd, hfail, w1, w2,
        calloc_ctx, foldl_monitor_cm_id, foldl_monitor_channel, foldl_monitor_pd,
        foldl_monitor_scq, foldl_monitor_rcq, released, acquired, unwinding, acquisitions,
        disconnect_free_cq, free_cq, free_pd, free_cm_id, free_channel, free_ctx_fields]
    case create_qp =>
      simp [setup_steps, List.takeWhile, step_done, step_fails] at hprev hfail
      obtain ⟨hch, hid, hthr, hbind, ⟨hra, hwa⟩, ⟨hrr, hwr⟩, hpd, hcq⟩ := hprev
      have w1 := wait_event_addr env.addr_events hwa
      have w2 := wait_event_route env.addr_events env.route_events hwr
      simp [setup_client, hv, hc, hch, hid, hthr, hbind, hra, hrr, hpd, hcq, hfail, w1, w2,
        calloc_ctx, foldl_monitor_cm_id, foldl_monitor_channel, foldl_monitor_pd,
        foldl_monitor_scq, foldl_monitor_rcq, released, acquired, unwinding, acquisitions,
        disconnect_free_cq, free_cq, free_pd, free_cm_id, free_channel, free_ctx_fields]
    case connect =>
      simp [setup_steps, List.takeWhile, step_done, step_fails] at hprev hfail
      obtain ⟨hch, hid, hthr, hbind, ⟨hra, hwa⟩, ⟨hrr, hwr⟩, hpd, hcq, hqp⟩ := hprev
      have w1 := wait_event_addr env.addr_events hwa
      have w2 := wait_event_route env.addr_events env.route_events hwr
      simp [setup_client, hv, hc, hch, hid, hthr, hbind, hra, hrr, hpd, hcq, hqp, hfail, w1, w2,
        calloc_ctx, foldl_monitor_cm_id, foldl_monitor_channel, foldl_monitor_pd,
        foldl_monitor_scq, foldl_monitor_rcq, released, acquired, unwinding, acquisitions,
        disconnect_free_cq, free_cq, free_pd, free_cm_id, free_channel, free_ctx_fields]
  exact ⟨main.1, main.2.1, main.2.2, unwinding_paired env s, unwinding_unpaired env s,
    acquisitions_unpaired env s, unwinding_nodup env s⟩

/-- Instance of C10: address and route resolve, protection domain, completion queue and
queue pair are created, and `rdma_connect` fails. -/
theorem setup_client_unwinds_witness :
    fails_first_at shared_sample setup_env_connect_fails .connect ∧
    (setup_client shared_sample setup_env_connect_fails).outcome = .null ∧
    (setup_client shared_sample setup_env_connect_fails).calls.filterMap released =
      [.connection 1, .cq 7, .pd 6, .cm_id 1, .event_channel 8, .context] :=
  have h : fails_first_at shared_sample setup_env_connect_fails .connect := by
    refine ⟨by decide, rfl, ?_, rfl⟩
    intro t ht
    simp only [setup_steps, List.takeWhile, ne_eq, decide_not] at ht
    simp at ht
    rcases ht with rfl | rfl | rfl | rfl | rfl | rfl | rfl | rfl | rfl <;>
      simp [step_done, step_fails, setup_env_connect_fails, shared_sample,
        client_event_monitor_step, calloc_ctx]
  ⟨h, (setup_client_unwinds shared_sample setup_env_connect_fails .connect h).1,
   (setup_client_unwinds shared_sample setup_env_connect_fails .connect h).2.1⟩

/-- C10 as stated fails: on a system where `rdma_connect` is the first call to fail,
`setup_client` releases a connection although none was acquired (the connect failed), and
it releases neither the queue pair nor the event-monitor thread acquired before the
connect, so the releases are not the acquisitions in reverse order. -/
theorem setup_client_connect_fails_accounting :
    (setup_client shared_sample setup_env_connect_fails).calls.filterMap released =
      [.connection 1, .cq 7, .pd 6, .cm_id 1, .event_channel 8, .context] ∧
    (setup_client shared_sample setup_env_connect_fails).calls.filterMap
        (acquired shared_sample) =
      [.context, .event_channel 8, .cm_id 1, .thread .client_event_monitor, .pd 6, .cq 7,
       .qp 1] ∧
    (setup_client shared_sample setup_env_connect_fails).calls.filterMap released ≠
      ((setup_client shared_sample setup_env_connect_fails).calls.filterMap
        (acquired shared_sample)).reverse ∧
    resource.connection 1 ∉ (setup_client shared_sample setup_env_connect_fails).calls.filterMap
        (acquired shared_sample) ∧
    resource.qp 1 ∉ (setup_client shared_sample setup_env_connect_fails).calls.filterMap
        released ∧
    resource.thread .client_event_monitor ∉
      (setup_client shared_sample setup_env_connect_fails).calls.filterMap released := by
  refine ⟨by decide, by decide, by decide, by decide, by decide, by decide⟩

/-! ## Connection states -/

/-- The loop of the monitor folds the step over the events it applies. -/
theorem client_event_monitor_eq_foldl (K : client_server_shared) :
    ∀ (fetches : List (Int × rdma_cm_event)) (ctx : client_ctx_t),
      client_event_monitor K ctx fetches =
        (applied_events K fetches).foldl client_event_monitor_step ctx := by
  intro fetches
  induction fetches with
  | nil => intro ctx; rfl
  | cons f rest ih =>
    intro ctx
    obtain ⟨rc, event⟩ := f
    simp only [client_event_monitor, applied_events]
    split_ifs
    · rfl
    · simpa using ih _

/-- The trace of the monitor ends in the context the monitor leaves behind. -/
theorem monitor_trace_getLast (events : List rdma_cm_event) :
    ∀ ctx : client_ctx_t,
      (monitor_trace ctx events).getLast? = some (events.foldl client_event_monitor_step ctx) := by
  induction events with
  | nil => intro ctx; rfl
  | cons e rest ih =>
    intro ctx
    have h := ih (client_event_monitor_step ctx e)
    cases hrest : monitor_trace (client_event_monitor_step ctx e) rest with
    | nil => rw [hrest] at h; simp at h
    | cons c cs =>
      rw [hrest] at h
      simp only [monitor_trace, hrest, List.foldl_cons]
      rw [List.getLast?_cons_cons]
      exact h

/-- The trace of the monitor starts with the context it starts from. -/
theorem monitor_trace_head (ctx : client_ctx_t) (events : List rdma_cm_event) :
    ∃ rest, monitor_trace ctx events = ctx :: rest := by
  cases events with
  | nil => exact ⟨[], rfl⟩
  | cons e es => exact ⟨_, rfl⟩

/-- Under the invariant a connected context has its connect handle set. -/
theorem order_inv_connected (t : order_tracker) (w : Bool) (ctx : client_ctx_t)
    (h : order_inv t w ctx) (hc : ctx.is_connected = true) : ctx.connect_id ≠ 0 := by
  obtain ⟨h1, h2, -, h4⟩ := h
  exact h1.mp (h4 (h2 ▸ hc)).2

/-- Looking at the same context again keeps the invariant and the state. -/
theorem order_stay (t : order_tracker) (w : Bool) (ctx : client_ctx_t)
    (h : order_inv t w ctx) :
    order_inv t (w || ctx.is_connected) ctx ∧
    state_of (w || ctx.is_connected) ctx = state_of w ctx := by
  obtain ⟨routed, live, closed⟩ := t
  obtain ⟨h1, h2, h3, h4⟩ := h
  simp only at h1 h2 h3 h4
  cases live
  · rw [show (w || ctx.is_connected) = w by simp [h2]]
    exact ⟨⟨h1, h2, h3, h4⟩, rfl⟩
  · refine ⟨⟨h1, h2, fun hf => absurd hf (by simp), h4⟩, ?_⟩
    simp [state_of, h2]

/-- An address-resolved event with a non-null identifier keeps the invariant and does not
take the state back. -/
theorem order_addr (t : order_tracker) (w : Bool) (ctx : client_ctx_t) (id : Nat)
    (h : order_inv t w ctx) (hid : id ≠ 0) :
    order_inv t (w || ctx.is_connected) { ctx with addr_id := id } ∧
    (state_of w ctx).rank ≤
      (state_of (w || ctx.is_connected) { ctx with addr_id := id }).rank := by
  obtain ⟨routed, live, closed⟩ := t
  obtain ⟨h1, h2, h3, h4⟩ := h
  simp only at h1 h2 h3 h4
  cases live
  · rw [show (w || ctx.is_connected) = w by simp [h2]]
    refine ⟨⟨h1, h2, h3, h4⟩, ?_⟩
    cases w <;> by_cases h5 : ctx.connect_id = 0 <;> by_cases h6 : ctx.addr_id = 0 <;>
      simp [state_of, h2, hid, h5, h6, connection_state.rank]
  · refine ⟨⟨h1, h2, fun hf => absurd hf (by simp), h4⟩, ?_⟩
    simp [state_of, h2]

/-- A route-resolved event with a non-null identifier keeps the invariant, now routed, and
does not take the state back. -/
theorem order_route (t : order_tracker) (w : Bool) (ctx : client_ctx_t) (id : Nat)
    (h : order_inv t w ctx) (hid : id ≠ 0) :
    order_inv { t with routed := true } (w || ctx.is_connected) { ctx with connect_id := id } ∧
    (state_of w ctx).rank ≤
      (state_of (w || ctx.is_connected) { ctx with connect_id := id }).rank := by
  obtain ⟨routed, live, closed⟩ := t
  obtain ⟨h1, h2, h3, h4⟩ := h
  simp only at h1 h2 h3 h4
  have hr : (true = true ↔ id ≠ 0) := ⟨fun _ => hid, fun _ => rfl⟩
  cases live
  · rw [show (w || ctx.is_connected) = w by simp [h2]]
    refine ⟨⟨hr, h2, h3, fun hf => absurd hf (by simp)⟩, ?_⟩
    cases w <;> by_cases h5 : ctx.connect_id = 0 <;> by_cases h6 : ctx.addr_id = 0 <;>
      simp [state_of, h2, hid, h5, h6, connection_state.rank]
  · refine ⟨⟨hr, h2, fun hf => absurd hf (by simp), fun hf => ⟨(h4 hf).1, rfl⟩⟩, ?_⟩
    simp [state_of, h2]

/-- An established event that is in order keeps the invariant, now live, and does not take
the state back. -/
theorem order_established (t : order_tracker) (w : Bool) (ctx : client_ctx_t)
    (h : order_inv t w ctx) (hr : t.routed = true) (hcl : t.closed = false) :
    order_inv { t with live := true } (w || ctx.is_connected) { ctx with is_connected := true } ∧
    (state_of w ctx).rank ≤
      (state_of (w || ctx.is_connected) { ctx with is_connected := true }).rank := by
  obtain ⟨routed, live, closed⟩ := t
  obtain ⟨h1, h2, h3, h4⟩ := h
  simp only at h1 h2 h3 h4 hr hcl
  refine ⟨⟨h1, rfl, fun hf => absurd hf (by simp), fun _ => ⟨hcl, hr⟩⟩, ?_⟩
  cases live
  · have hw : w = false := by rw [h3 rfl, hcl]
    by_cases h5 : ctx.connect_id = 0 <;> by_cases h6 : ctx.addr_id = 0 <;>
      simp [state_of, h2, hw, h5, h6, connection_state.rank]
  · simp [state_of, h2]

/-- A disconnected event keeps the invariant, closing a live connection, and does not take
the state back. -/
theorem order_disconnected (t : order_tracker) (w : Bool) (ctx : client_ctx_t)
    (h : order_inv t w ctx) :
    order_inv { t with live := false, closed := t.closed || t.live } (w || ctx.is_connected)
      { ctx with is_connected := false } ∧
    (state_of w ctx).rank ≤
      (state_of (w || ctx.is_connected) { ctx with is_connected := false }).rank := by
  obtain ⟨routed, live, closed⟩ := t
  obtain ⟨h1, h2, h3, h4⟩ := h
  simp only at h1 h2 h3 h4
  cases live
  · refine ⟨⟨h1, rfl, fun _ => by simp [h2, h3 rfl], fun hf => absurd hf (by simp)⟩, ?_⟩
    simp [state_of, h2]
  · refine ⟨⟨h1, rfl, fun _ => by simp [h2], fun hf => absurd hf (by simp)⟩, ?_⟩
    simp [state_of, h2, connection_state.rank]

/-- An event that is in order and has its handle set keeps the invariant and does not take
the state back. -/
theorem order_step (t : order_tracker) (w : Bool) (ctx : client_ctx_t) (event : rdma_cm_event)
    (hinv : order_inv t w ctx) (hid : handle_set event = true)
    (hal : order_allows t event.event = true) :
    order_inv (order_track t event.event) (w || ctx.is_connected)
      (client_event_monitor_step ctx event) ∧
    (state_of w ctx).rank ≤
      (state_of (w || ctx.is_connected) (client_event_monitor_step ctx event)).rank := by
  have hstay := order_stay t w ctx hinv
  unfold client_event_monitor_step
  cases hev : event.event <;>
    simp only [hev, handle_set, order_allows, order_track, decide_eq_true_eq,
      Bool.and_eq_true, Bool.not_eq_true'] at hid hal ⊢
  case RDMA_CM_EVENT_ADDR_RESOLVED => exact order_addr t w ctx event.id hinv hid
  case RDMA_CM_EVENT_ROUTE_RESOLVED => exact order_route t w ctx event.id hinv hid
  case RDMA_CM_EVENT_ESTABLISHED => exact order_established t w ctx hinv hal.1 hal.2
  case RDMA_CM_EVENT_DISCONNECTED => exact order_disconnected t w ctx hinv
  all_goals exact ⟨hstay.1, le_of_eq (congrArg connection_state.rank hstay.2.symm)⟩

/-- An established event that is out of order breaks the conclusion at once: it takes the
state back from `Disconnected`, or it marks a context without connect handle connected. -/
theorem order_violation (t : order_tracker) (w : Bool) (ctx : client_ctx_t)
    (event : rdma_cm_event) (hinv : order_inv t w ctx)
    (hnot : order_allows t event.event = false) :
    ¬ ((state_of w ctx).rank ≤
        (state_of (w || ctx.is_connected) (client_event_monitor_step ctx event)).rank ∧
      ((client_event_monitor_step ctx event).is_connected = true →
        (client_event_monitor_step ctx event).connect_id ≠ 0)) := by
  obtain ⟨routed, live, closed⟩ := t
  obtain ⟨h1, h2, h3, h4⟩ := hinv
  simp only at h1 h2 h3 h4
  unfold client_event_monitor_step
  cases hev : event.event <;> simp only [hev, order_allows] at hnot ⊢ <;>
    try cases hnot
  rintro ⟨hle, hcon⟩
  have hrouted : routed = true := h1.mpr (hcon trivial)
  have hclosed : closed = true := by simpa [hrouted] using hnot
  have hlive : live = false := by
    cases live
    · rfl
    · exact absurd (h4 rfl).1 (by simp [hclosed])
  have hw : w = true := by rw [h3 hlive, hclosed]
  rw [hlive] at h2
  simp [state_of, h2, hw, connection_state.rank] at hle

/-- When the handles of the events are set, the established events are in order exactly
when the state never goes back and no context is connected without a connect handle. -/
theorem established_in_order_iff (events : List rdma_cm_event) :
    ∀ (t : order_tracker) (w : Bool) (ctx : client_ctx_t), order_inv t w ctx →
      (∀ e ∈ events, handle_set e = true) →
      (established_in_order t events = true ↔
        (states_along w (monitor_trace ctx events)).Chain' (fun a b => a.rank ≤ b.rank) ∧
        ∀ c ∈ monitor_trace ctx events, c.is_connected = true → c.connect_id ≠ 0) := by
  induction events with
  | nil =>
    intro t w ctx hinv _
    simp only [established_in_order, monitor_trace, states_along, List.chain'_singleton,
      List.mem_singleton, true_and, true_iff]
    intro c hc
    subst hc
    exact order_inv_connected t w c hinv
  | cons e rest ih =>
    intro t w ctx hinv hids
    have hid : handle_set e = true := hids e (List.mem_cons_self _ _)
    have hrest : ∀ x ∈ rest, handle_set x = true :=
      fun x hx => hids x (List.mem_cons_of_mem _ hx)
    obtain ⟨tl, htl⟩ := monitor_trace_head (client_event_monitor_step ctx e) rest
    have hmem : client_event_monitor_step ctx e ∈
        monitor_trace (client_event_monitor_step ctx e) rest := by
      rw [htl]
      exact List.mem_cons_self _ _
    cases hal : order_allows t e.event with
    | true =>
      obtain ⟨hinv1, hle⟩ := order_step t w ctx e hinv hid hal
      have h := ih _ _ _ hinv1 hrest
      simp only [established_in_order, hal, Bool.true_and, monitor_trace, states_along]
      rw [h, htl]
      simp only [states_along, List.chain'_cons, List.mem_cons]
      constructor
      · rintro ⟨hch, hcon⟩
        refine ⟨⟨hle, hch⟩, ?_⟩
        intro c hc
        rcases hc with rfl | hc
        · exact order_inv_connected t w c hinv
        · exact hcon c hc
      · rintro ⟨⟨-, hch⟩, hcon⟩
        exact ⟨hch, fun c hc => hcon c (Or.inr hc)⟩
    | false =>
      have hv := order_violation t w ctx e hinv hal
      simp only [established_in_order, hal, Bool.false_and, monitor_trace, states_along]
      constructor
      · intro hf
        exact absurd hf (by simp)
      · rintro ⟨hch, hcon⟩
        exfalso
        apply hv
        rw [htl] at hch
        simp only [states_along, List.chain'_cons] at hch
        exact ⟨hch.1, hcon _ (List.mem_cons_of_mem _ hmem)⟩

/-- For the order of the ranks, never going back from one state to the next is never going
back at all. -/
theorem rank_chain_iff_pairwise (l : List connection_state) :
    l.Chain' (fun a b => a.rank ≤ b.rank) ↔ l.Pairwise (fun a b => a.rank ≤ b.rank) := by
  haveI : IsTrans connection_state (fun a b => a.rank ≤ b.rank) :=
    ⟨fun _ _ _ h1 h2 => le_trans h1 h2⟩
  exact List.chain'_iff_pairwise

/-- C11, as the code has it: the monitor has no order of its own, it applies each event as
it comes. When, among the events it applies to a freshly created context, every
address-resolved and route-resolved event carries a non-null identifier, no established
event comes before a route-resolved event and no established event comes after a
disconnected event that followed an established one, the state read off the context moves
only forward along `Initial`, `AddressResolved`, `RouteResolved`, `Established`,
`Disconnected`: after a disconnected state there is no established state, and no context
is marked connected before its connect handle is set. The trace ends in the context the
monitor leaves behind. -/
theorem client_event_monitor_states_forward (K : client_server_shared)
    (fetches : List (Int × rdma_cm_event))
    (hids : ∀ e ∈ applied_events K fetches, handle_set e = true)
    (horder : established_in_order ⟨false, false, false⟩ (applied_events K fetches) = true) :
    (states_along false (monitor_trace calloc_ctx (applied_events K fetches))).Pairwise
      (fun a b => a.rank ≤ b.rank) ∧
    (states_along false (monitor_trace calloc_ctx (applied_events K fetches))).Pairwise
      (fun a b => a = .Disconnected → b ≠ .Established) ∧
    (∀ c ∈ monitor_trace calloc_ctx (applied_events K fetches),
      c.is_connected = true → c.connect_id ≠ 0) ∧
    (monitor_trace calloc_ctx (applied_events K fetches)).getLast? =
      some (client_event_monitor K calloc_ctx fetches) := by
  have hinv : order_inv ⟨false, false, false⟩ false calloc_ctx :=
    ⟨⟨fun h => absurd h (by simp), fun h => absurd rfl h⟩, rfl, fun _ => rfl,
      fun h => absurd h (by simp)⟩
  obtain ⟨h2, h3⟩ := (established_in_order_iff _ _ false calloc_ctx hinv hids).mp horder
  rw [rank_chain_iff_pairwise] at h2
  refine ⟨h2, h2.imp ?_, h3, ?_⟩
  · intro a b hab ha hb
    subst ha
    subst hb
    simp [connection_state.rank] at hab
  · rw [monitor_trace_getLast, client_event_monitor_eq_foldl]

/-- Instance of C11 as amended: a connection attempt in which the address is resolved
twice and the disconnect is reported twice. -/
theorem client_event_monitor_states_forward_witness :
    (∀ e ∈ applied_events shared_sample fetches_attempt, handle_set e = true) ∧
    established_in_order ⟨false, false, false⟩
      (applied_events shared_sample fetches_attempt) = true ∧
    (states_along false (monitor_trace calloc_ctx
        (applied_events shared_sample fetches_attempt))).Pairwise
      (fun a b => a.rank ≤ b.rank) :=
  ⟨by decide, by decide,
   (client_event_monitor_states_forward shared_sample fetches_attempt (by decide)
      (by decide)).1⟩

/-- The order asked of the established events is no more than needed: when the handles of
the applied events are set, the state never goes back and no context is connected without
a connect handle, then the established events are in order. -/
theorem established_in_order_of_forward (K : client_server_shared)
    (fetches : List (Int × rdma_cm_event))
    (hids : ∀ e ∈ applied_events K fetches, handle_set e = true)
    (hfwd : (states_along false (monitor_trace calloc_ctx (applied_events K fetches))).Pairwise
      (fun a b => a.rank ≤ b.rank))
    (hcon : ∀ c ∈ monitor_trace calloc_ctx (applied_events K fetches),
      c.is_connected = true → c.connect_id ≠ 0) :
    established_in_order ⟨false, false, false⟩ (applied_events K fetches) = true := by
  have hinv : order_inv ⟨false, false, false⟩ false calloc_ctx :=
    ⟨⟨fun h => absurd h (by simp), fun h => absurd rfl h⟩, rfl, fun _ => rfl,
      fun h => absurd h (by simp)⟩
  exact (established_in_order_iff _ _ false calloc_ctx hinv hids).mpr
    ⟨(rank_chain_iff_pairwise _).mpr hfwd, hcon⟩

/-- C11 as stated fails: the monitor applies an established, a disconnected and again an
established event to a freshly created context; the states read off are `Initial`,
`Established`, `Disconnected`, `Established`, so the state goes back from `Disconnected`
to `Established`, and the context left behind is marked connected with no address handle
and no connect handle. An address-resolved event with a null identifier after one with a
handle takes the state back from `AddressResolved` to `Initial`. -/
theorem client_event_monitor_reconnects :
    states_along false (monitor_trace calloc_ctx
        (applied_events shared_sample fetches_reconnect)) =
      [.Initial, .Established, .Disconnected, .Established] ∧
    ¬ (states_along false (monitor_trace calloc_ctx
        (applied_events shared_sample fetches_reconnect))).Pairwise
      (fun a b => a.rank ≤ b.rank) ∧
    (client_event_monitor shared_sample calloc_ctx fetches_reconnect).is_connected = true ∧
    (client_event_monitor shared_sample calloc_ctx fetches_reconnect).connect_id = 0 ∧
    (client_event_monitor shared_sample calloc_ctx fetches_reconnect).addr_id = 0 ∧
    states_along false (monitor_trace calloc_ctx
        (applied_events shared_sample fetches_null_handle)) =
      [.Initial, .AddressResolved, .Initial] := by
  refine ⟨by decide, by decide, rfl, rfl, rfl, by decide⟩

/-! ## The slot index over the lifetime of the counter -/

/-- The counter after `n` increments is `n` wrapped into 32 bits. -/
theorem count_after_eq (n : Nat) : count_after n = wrap_int32 (n : Int) := by
  induction n with
  | zero => rfl
  | succ n ih => rw [count_after, ih, wrap_int32_succ]

/-- Every call with `OPC_SEND_ONLY` whose receive post goes through increments the counter
once, whatever happens afterwards; a call whose receive post is refused leaves it. -/
theorem send_client_request_count (K : client_server_shared) (env : send_env) (count : Int)
    (ctx : client_ctx_t) (msg_sz : Nat) :
    (send_client_request K env count ctx K.OPC_SEND_ONLY msg_sz).count =
      if K.API_STATUS env.post_recv_rc then count else wrap_int32 (count + 1) := by
  simp only [send_client_request, ne_eq, not_true_eq_false, ↓reduceIte]
  split_ifs
  · rfl
  · rfl
  · generalize wait_rtt_done _ ctx _ = w
    cases w <;> rfl
  · rfl

/-- For a counter in the range of a 32-bit `int`, the slot id lies in the table exactly
when the counter is not negative or is a multiple of the capacity. -/
theorem slot_id_in_bounds_iff (count : Int) (hlo : -2147483648 ≤ count)
    (hhi : count < 2147483648) :
    to_uint64 (Int.tmod count MAX_SEND_WR) < MAX_SEND_WR ↔ (0 ≤ count ∨ count % 1024 = 0) := by
  unfold to_uint64 MAX_SEND_WR
  rcases Int.lt_or_le count 0 with hneg | hpos
  · obtain ⟨n, hn⟩ := Int.eq_negSucc_of_lt_zero hneg
    have h1 : Int.tmod count ((1024 : Nat) : Int) = -(((n + 1) % 1024 : Nat) : Int) := by
      rw [hn]
      rfl
    rw [h1]
    have h2 : count = -((n : Int) + 1) := by rw [hn, Int.negSucc_eq]
    omega
  · rw [Int.tmod_eq_emod hpos (by norm_num)]
    omega

/-- C12 at the request that follows `2^31 + 1` increments of the counter: the counter has
wrapped to `-2147483647`, the slot id computed from it is `2^64 - 1023`, which is not
below 1024, and the call, made on a serving transport, indexes `rtt_done` outside the
table. -/
theorem slot_id_out_of_bounds_after_wrap :
    count_after 2147483649 = -2147483647 ∧
    (recv_wr_of (count_after 2147483649) ctx_sample 64).wr_id = 18446744073709550593 ∧
    ¬ (recv_wr_of (count_after 2147483649) ctx_sample 64).wr_id < MAX_SEND_WR ∧
    (send_client_request shared_sample transport_ok (count_after 2147483649) ctx_sample
      shared_sample.OPC_SEND_ONLY 64).outcome = .fault := by
  have hc : count_after 2147483649 = -2147483647 := by
    rw [count_after_eq]
    decide
  rw [hc]
  refine ⟨rfl, by decide, by decide, rfl⟩

end RdmaClient
